import Mathlib

/-!
# gnome-background: the desktop background controller

A shallow embedding of `src/desktop-background.c` (the controller that renders
the wallpaper and installs it on the desktop window and on the root window),
of the start-up sequence of `src/main.c` and of the delete handler of
`src/desktop-window.c`.

The controller is single threaded: every C function that takes `self` becomes a
function `State → State` (with the C return value in front when there is one).
`State` holds the fields of `NautilusDesktopBackgroundDetails` verbatim,
together with the part of the toolkit the code observes (is the widget
realized, the size of its window, the size of the screen, the fade preference,
the pending idle sources of the main loop) and a chronological log of the calls
made into cairo, GDK, GLib and libgnome-desktop.
-/

namespace GnomeBackground

/-! ## Objects owned by the libraries -/

/-- A `cairo_surface_t`: its identity and the size it was created for. -/
structure Surface where
  id : Nat
  width : Int
  height : Int
deriving DecidableEq, Repr

/-- A `GdkWindow`, present only while the widget is realized. -/
structure GdkWindow where
  width : Int
  height : Int
deriving DecidableEq, Repr

/-- A `GdkScreen` with the size it currently reports. -/
structure GdkScreen where
  width : Int
  height : Int
deriving DecidableEq, Repr

/-- The handlers the controller connects to a crossfade's "finished" signal. -/
inductive FadeHandler where
  | free_fade
  | on_fade_finished
deriving DecidableEq, Repr

/-- A `GnomeBGCrossfade` object. `started` is `gnome_bg_crossfade_is_started`;
`finished_handlers` lists the handlers of its "finished" signal in connection
order. -/
structure Crossfade where
  id : Nat
  width : Int
  height : Int
  start_surface : Option Surface
  end_surface : Option Surface
  started : Bool
  finished_handlers : List FadeHandler
deriving DecidableEq, Repr

/-- The functions the controller hands to `g_idle_add`. -/
inductive IdleFn where
  | background_changed_cb
  | background_change_event_idle_cb
deriving DecidableEq, Repr

/-- A `GdkColor`. -/
structure GdkColor where
  red : Nat
  green : Nat
  blue : Nat
deriving DecidableEq, Repr

/-- The enum `GDesktopBackgroundStyle`; `wallpaper` is the tiled placement. -/
inductive GDesktopBackgroundStyle where
  | none
  | wallpaper
  | centered
  | scaled
  | stretched
  | zoom
  | spanned
deriving DecidableEq, Repr

/-- The part of a background configuration the controller sets: placement and
image file (`NULL` for no image). It is the content of a `GnomeBG` object and
also what the "org.gnome.desktop.background" settings persist. -/
structure GnomeBG where
  placement : GDesktopBackgroundStyle
  filename : Option String
deriving DecidableEq, Repr

/-- The calls the controller makes into the libraries, as they are logged in
`State.log`. -/
inductive Call where
  | cairo_surface_destroy (surface : Surface)
  | gnome_bg_create_surface (result : Option Surface) (width height : Int)
  | gdk_window_set_background_pattern (surface : Surface)
  | gnome_bg_set_surface_as_root (surface : Surface)
  | gnome_bg_crossfade_new (fade : Nat) (width height : Int)
  | gnome_bg_crossfade_set_start_surface (fade : Nat) (surface : Surface)
  | gnome_bg_crossfade_set_end_surface (fade : Nat) (surface : Surface)
  | gnome_bg_crossfade_start (fade : Nat)
  | g_object_unref_fade (fade : Nat)
  | gtk_widget_queue_draw (widget : Option Nat)
  | g_idle_add (id : Nat) (fn : IdleFn)
  | g_source_remove (id : Nat)
  | gnome_bg_load_from_preferences
  | g_object_ref_self
  | g_object_unref_self
  | gnome_bg_set_placement (placement : GDesktopBackgroundStyle)
  | gnome_bg_set_filename (filename : Option String)
  | gnome_bg_save_to_preferences (saved : GnomeBG)
deriving DecidableEq, Repr

/-! ## The controller and what it observes -/

/-- The C struct `NautilusDesktopBackgroundDetails`; `bg` holds the content of
the one `GnomeBG` object the controller owns for its whole life. A pointer that
may be `NULL` is an `Option`. -/
structure NautilusDesktopBackgroundDetails where
  widget : Option Nat
  bg : GnomeBG
  background_surface : Option Surface
  fade : Option Crossfade
  background_entire_width : Int
  background_entire_height : Int
  default_color : GdkColor
  screen_size_handler : Nat
  screen_monitors_handler : Nat
  change_idle_id : Nat
deriving DecidableEq, Repr

/-- The controller object together with the toolkit state it reads and the
log of the library calls it made. -/
structure State where
  details : NautilusDesktopBackgroundDetails
  /-- GObject reference count of the controller. -/
  ref_count : Nat
  /-- The "ignore-pending-change" datum set with `g_object_set_data`. -/
  ignore_pending_change : Bool
  /-- Result `gtk_widget_get_realized` gives for the desktop window. -/
  realized : Bool
  window_width : Int
  window_height : Int
  screen_width : Int
  screen_height : Int
  /-- The "background-fade" key of `nautilus_desktop_preferences`. -/
  do_fade : Bool
  /-- The surface the root window currently shows. -/
  root_surface : Surface
  /-- What the settings object `gnome_background_preferences` persists. -/
  gnome_background_preferences : GnomeBG
  /-- Idle sources attached to the main loop and not yet dispatched. -/
  idle_sources : List (Nat × IdleFn)
  next_source_id : Nat
  next_surface_id : Nat
  next_fade_id : Nat
  next_handler_id : Nat
  log : List Call
deriving DecidableEq, Repr

/-- Append one library call to the log. -/
def record (s : State) (c : Call) : State :=
  { s with log := s.log ++ [c] }

/-! ## Toolkit and library functions the controller calls

GTK and GLib guard their entry points with `g_return_val_if_fail`: a `NULL`
widget is not realized and has no window and no screen, and a `NULL` screen
reports size 0. -/

def gtk_widget_get_realized (s : State) (widget : Option Nat) : Bool :=
  widget.isSome && s.realized

def gtk_widget_get_window (s : State) (widget : Option Nat) : Option GdkWindow :=
  if gtk_widget_get_realized s widget then some ⟨s.window_width, s.window_height⟩ else none

def gtk_widget_get_screen (s : State) (widget : Option Nat) : Option GdkScreen :=
  match widget with
  | some _ => some ⟨s.screen_width, s.screen_height⟩
  | none => none

def gdk_window_get_width (window : Option GdkWindow) : Int :=
  match window with
  | some w => w.width
  | none => 0

def gdk_window_get_height (window : Option GdkWindow) : Int :=
  match window with
  | some w => w.height
  | none => 0

def gdk_screen_get_width (screen : Option GdkScreen) : Int :=
  match screen with
  | some sc => sc.width
  | none => 0

def gdk_screen_get_height (screen : Option GdkScreen) : Int :=
  match screen with
  | some sc => sc.height
  | none => 0

/-- Library call `gnome_bg_create_surface (bg, window, width, height, TRUE)`:
a new surface object of the requested size; `NULL` when there is no window. -/
def gnome_bg_create_surface (s : State) (window : Option GdkWindow) (width height : Int) :
    Option Surface × State :=
  match window with
  | none => (none, record s (Call.gnome_bg_create_surface none width height))
  | some _ =>
    let surface : Surface := ⟨s.next_surface_id, width, height⟩
    (some surface,
      { record s (Call.gnome_bg_create_surface (some surface) width height) with
        next_surface_id := s.next_surface_id + 1 })

/-- Library call `gnome_bg_set_surface_as_root (screen, surface)`. -/
def gnome_bg_set_surface_as_root (s : State) (surface : Surface) : State :=
  { record s (Call.gnome_bg_set_surface_as_root surface) with root_surface := surface }

/-- Library call `gnome_bg_get_surface_from_root (screen)`. -/
def gnome_bg_get_surface_from_root (s : State) : Surface :=
  s.root_surface

/-- Library call `gnome_bg_crossfade_new (width, height)`: a fresh fade that is
not started and has no surfaces and no handlers. -/
def gnome_bg_crossfade_new (s : State) (width height : Int) : Crossfade × State :=
  (⟨s.next_fade_id, width, height, none, none, false, []⟩,
    { record s (Call.gnome_bg_crossfade_new s.next_fade_id width height) with
      next_fade_id := s.next_fade_id + 1 })

def gnome_bg_crossfade_is_started (f : Crossfade) : Bool :=
  f.started

def gnome_bg_crossfade_set_start_surface (f : Crossfade) (surface : Surface) : Bool × Crossfade :=
  (true, { f with start_surface := some surface })

def gnome_bg_crossfade_set_end_surface (f : Crossfade) (surface : Surface) : Bool × Crossfade :=
  (true, { f with end_surface := some surface })

/-- Library call `gnome_bg_crossfade_start (fade, window)`: it returns without
starting unless there is a window, both surfaces are set and the fade is not
started yet. -/
def gnome_bg_crossfade_start (f : Crossfade) (window : Option GdkWindow) : Crossfade :=
  if window.isSome && f.start_surface.isSome && f.end_surface.isSome && !f.started then
    { f with started := true }
  else f

/-- Library call `gnome_bg_load_from_preferences (bg, gnome_background_preferences)`:
the object takes over the persisted configuration. -/
def gnome_bg_load_from_preferences (s : State) : State :=
  { record s Call.gnome_bg_load_from_preferences with
    details := { s.details with bg := s.gnome_background_preferences } }

/-- Library call `gnome_bg_set_placement (bg, placement)`. -/
def gnome_bg_set_placement (s : State) (placement : GDesktopBackgroundStyle) : State :=
  { record s (Call.gnome_bg_set_placement placement) with
    details := { s.details with bg := { s.details.bg with placement := placement } } }

/-- Library call `gnome_bg_set_filename (bg, filename)`. -/
def gnome_bg_set_filename (s : State) (filename : Option String) : State :=
  { record s (Call.gnome_bg_set_filename filename) with
    details := { s.details with bg := { s.details.bg with filename := filename } } }

/-- Library call `gnome_bg_save_to_preferences (bg, gnome_background_preferences)`:
the configuration of the object is persisted. -/
def gnome_bg_save_to_preferences (s : State) : State :=
  { record s (Call.gnome_bg_save_to_preferences s.details.bg) with
    gnome_background_preferences := s.details.bg }

/-- GLib call `g_idle_add (fn, self)`: attaches a source under a fresh id. -/
def g_idle_add (s : State) (fn : IdleFn) : Nat × State :=
  (s.next_source_id,
    { record s (Call.g_idle_add s.next_source_id fn) with
      idle_sources := s.idle_sources ++ [(s.next_source_id, fn)]
      next_source_id := s.next_source_id + 1 })

/-- GLib call `g_source_remove (id)`. -/
def g_source_remove (s : State) (id : Nat) : State :=
  { record s (Call.g_source_remove id) with
    idle_sources := s.idle_sources.filter (fun p => p.1 != id) }

/-- GLib call `g_signal_connect` on the screen: returns a fresh handler id. -/
def g_signal_connect (s : State) : Nat × State :=
  (s.next_handler_id, { s with next_handler_id := s.next_handler_id + 1 })

/-! ## desktop-background.c -/

def free_fade (s : State) : State :=
  match s.details.fade with
  | some f =>
    let s := record s (Call.g_object_unref_fade f.id)
    { s with details := { s.details with fade := none } }
  | none => s

def free_background_surface (s : State) : State :=
  match s.details.background_surface with
  | some surface =>
    let s := record s (Call.cairo_surface_destroy surface)
    { s with details := { s.details with background_surface := none } }
  | none => s

def nautilus_desktop_background_unrealize (s : State) : State :=
  let s := free_background_surface s
  { s with details := { s.details with
      background_entire_width := 0
      background_entire_height := 0
      default_color := ⟨0xffff, 0xffff, 0xffff⟩ } }

/-- The temporary `start_surface` is referenced and released again inside the
function, so no surface changes owner and nothing is logged for it. -/
def init_fade (s : State) : State :=
  let widget := s.details.widget
  if widget.isNone || !gtk_widget_get_realized s widget then s
  else if !s.do_fade then s
  else
    let s :=
      match s.details.fade with
      | none =>
        let window := gtk_widget_get_window s widget
        let old_width := gdk_window_get_width window
        let old_height := gdk_window_get_height window
        let screen := gtk_widget_get_screen s widget
        let width := gdk_screen_get_width screen
        let height := gdk_screen_get_height screen
        if old_width = width ∧ old_height = height then
          let r := gnome_bg_crossfade_new s width height
          { r.2 with details := { r.2.details with
              fade := some { r.1 with
                finished_handlers := r.1.finished_handlers ++ [FadeHandler.free_fade] } } }
        else s
      | some _ => s
    match s.details.fade with
    | some f =>
      if !gnome_bg_crossfade_is_started f then
        let start_surface :=
          match s.details.background_surface with
          | none => gnome_bg_get_surface_from_root s
          | some b => b
        let s := record s (Call.gnome_bg_crossfade_set_start_surface f.id start_surface)
        { s with details := { s.details with
            fade := some (gnome_bg_crossfade_set_start_surface f start_surface).2 } }
      else s
    | none => s

def nautilus_desktop_background_ensure_realized (s : State) : Bool × State :=
  let screen := gtk_widget_get_screen s s.details.widget
  let entire_height := gdk_screen_get_height screen
  let entire_width := gdk_screen_get_width screen
  if entire_width = s.details.background_entire_width ∧
      entire_height = s.details.background_entire_height then
    (false, s)
  else
    let s := free_background_surface s
    let window := gtk_widget_get_window s s.details.widget
    let r := gnome_bg_create_surface s window entire_width entire_height
    let s := { r.2 with details := { r.2.details with background_surface := r.1 } }
    let s := { s with ignore_pending_change := true }
    (true, { s with details := { s.details with
        background_entire_width := entire_width
        background_entire_height := entire_height } })

def on_fade_finished (s : State) : State :=
  let s := (nautilus_desktop_background_ensure_realized s).2
  match s.details.background_surface with
  | some b => gnome_bg_set_surface_as_root s b
  | none => s

def fade_to_surface (s : State) (window : Option GdkWindow) (surface : Surface) : Bool × State :=
  match s.details.fade with
  | none => (false, s)
  | some f =>
    let r := gnome_bg_crossfade_set_end_surface f surface
    let s := record s (Call.gnome_bg_crossfade_set_end_surface f.id surface)
    let s := { s with details := { s.details with fade := some r.2 } }
    if !r.1 then (false, s)
    else if !gnome_bg_crossfade_is_started r.2 then
      let f1 := gnome_bg_crossfade_start r.2 window
      let s := record s (Call.gnome_bg_crossfade_start f.id)
      let f2 := { f1 with
        finished_handlers := f1.finished_handlers ++ [FadeHandler.on_fade_finished] }
      (gnome_bg_crossfade_is_started f2, { s with details := { s.details with fade := some f2 } })
    else (gnome_bg_crossfade_is_started r.2, s)

def nautilus_desktop_background_set_up_widget (s : State) : State :=
  let widget := s.details.widget
  if !gtk_widget_get_realized s widget then s
  else
    let s := (nautilus_desktop_background_ensure_realized s).2
    match s.details.background_surface with
    | none => s
    | some surface =>
      let window := gtk_widget_get_window s widget
      let r := fade_to_surface s window surface
      if !r.1 then
        let s := record r.2 (Call.gdk_window_set_background_pattern surface)
        gnome_bg_set_surface_as_root s surface
      else r.2

/-- The idle callback; it returns `FALSE`, so the main loop drops its source
after the call (see `dispatch_idle`). -/
def background_changed_cb (s : State) : State :=
  let s := { s with details := { s.details with change_idle_id := 0 } }
  let s := nautilus_desktop_background_unrealize s
  let s := nautilus_desktop_background_set_up_widget s
  record s (Call.gtk_widget_queue_draw s.details.widget)

def queue_background_change (s : State) : State :=
  let s := if s.details.change_idle_id ≠ 0 then g_source_remove s s.details.change_idle_id else s
  let r := g_idle_add s IdleFn.background_changed_cb
  { r.2 with details := { r.2.details with change_idle_id := r.1 } }

def screen_size_changed (s : State) : State :=
  queue_background_change s

def nautilus_desktop_background_changed (s : State) : State :=
  queue_background_change (init_fade s)

def nautilus_desktop_background_transitioned (s : State) : State :=
  queue_background_change (free_fade s)

/-- Disconnecting the previous screen handlers has no effect on the state kept
here; the two handler ids are replaced by fresh ones. -/
def widget_realize_cb (s : State) : State :=
  let r := g_signal_connect s
  let s := { r.2 with details := { r.2.details with screen_size_handler := r.1 } }
  let r := g_signal_connect s
  let s := { r.2 with details := { r.2.details with screen_monitors_handler := r.1 } }
  nautilus_desktop_background_set_up_widget (init_fade s)

def widget_unrealize_cb (s : State) : State :=
  let s := if s.details.screen_size_handler > 0 then
      { s with details := { s.details with screen_size_handler := 0 } } else s
  if s.details.screen_monitors_handler > 0 then
    { s with details := { s.details with screen_monitors_handler := 0 } } else s

def on_widget_destroyed (s : State) : State :=
  let s := if s.details.change_idle_id ≠ 0 then
      let s := g_source_remove s s.details.change_idle_id
      { s with details := { s.details with change_idle_id := 0 } }
    else s
  let s := free_fade s
  { s with details := { s.details with widget := none } }

/-- The controller's `finalize`, run when the last reference is dropped. -/
def nautilus_desktop_background_finalize (s : State) : State :=
  free_fade (free_background_surface s)

/-- GObject call `g_object_ref (self)`. -/
def g_object_ref (s : State) : State :=
  { record s Call.g_object_ref_self with ref_count := s.ref_count + 1 }

/-- GObject call `g_object_unref (self)`: dropping the last reference finalizes
the controller. -/
def g_object_unref (s : State) : State :=
  let s := record s Call.g_object_unref_self
  if s.ref_count ≤ 1 then nautilus_desktop_background_finalize { s with ref_count := 0 }
  else { s with ref_count := s.ref_count - 1 }

/-- The idle callback of a settings change; it returns `FALSE`. -/
def background_change_event_idle_cb (s : State) : State :=
  g_object_unref (gnome_bg_load_from_preferences s)

def background_settings_change_event_cb (s : State) : State :=
  (g_idle_add (g_object_ref s) IdleFn.background_change_event_idle_cb).2

/-- The GLib function `g_filename_from_uri` is passed in as `from_uri`: it
gives the local path of a URI, or `NULL` when the URI names no local file. -/
def nautilus_desktop_background_set_image_uri (from_uri : String → Option String)
    (s : State) (image_uri : Option String) : State :=
  let filename :=
    match image_uri with
    | some uri => from_uri uri
    | none => none
  gnome_bg_set_filename s filename

def nautilus_desktop_background_receive_dropped_background_image
    (from_uri : String → Option String) (s : State) (image_uri : Option String) : State :=
  let s := gnome_bg_set_placement s GDesktopBackgroundStyle.wallpaper
  let s := nautilus_desktop_background_set_image_uri from_uri s image_uri
  gnome_bg_save_to_preferences s

/-- Instance initialisation: GObject hands out zeroed private data, the
function sets the default colour; the new object holds one reference. -/
def nautilus_desktop_background_init (s : State) : State :=
  { s with
    details :=
      { widget := none
        bg := ⟨GDesktopBackgroundStyle.none, none⟩
        background_surface := none
        fade := none
        background_entire_width := 0
        background_entire_height := 0
        default_color := ⟨0xffff, 0xffff, 0xffff⟩
        screen_size_handler := 0
        screen_monitors_handler := 0
        change_idle_id := 0 }
    ref_count := 1
    ignore_pending_change := false }

/-- Property setter, case `PROP_WIDGET`. -/
def nautilus_desktop_background_set_property (s : State) (widget : Option Nat) : State :=
  { s with details := { s.details with widget := widget } }

def nautilus_desktop_background_constructed (s : State) : State :=
  queue_background_change (gnome_bg_load_from_preferences s)

/-- Construction of the first instance through `g_object_new`: instance init,
the construct-only property "widget", then `constructed`. -/
def nautilus_desktop_background_new (s : State) (widget : Nat) : State :=
  nautilus_desktop_background_constructed
    (nautilus_desktop_background_set_property (nautilus_desktop_background_init s) (some widget))

/-! ## The main loop and the signals delivered to the controller -/

def run_idle (s : State) (fn : IdleFn) : State :=
  match fn with
  | IdleFn.background_changed_cb => background_changed_cb s
  | IdleFn.background_change_event_idle_cb => background_change_event_idle_cb s

/-- The main loop dispatches the idle source `id`: its callback runs and,
because both callbacks return `FALSE`, the source is destroyed afterwards. -/
def dispatch_idle (s : State) (id : Nat) : State :=
  match s.idle_sources.find? (fun p => p.1 == id) with
  | none => s
  | some p =>
    let s := run_idle s p.2
    { s with idle_sources := s.idle_sources.filter (fun q => q.1 != id) }

def run_fade_handler (s : State) (h : FadeHandler) : State :=
  match h with
  | FadeHandler.free_fade => free_fade s
  | FadeHandler.on_fade_finished => on_fade_finished s

/-- The crossfade the controller holds emits "finished": the connected
handlers run in connection order. -/
def fade_finished (s : State) : State :=
  match s.details.fade with
  | none => s
  | some f => f.finished_handlers.foldl run_fade_handler s

/-- GTK realizes the desktop window and emits "realize". -/
def gtk_widget_realize (s : State) : State :=
  if s.details.widget.isSome && !s.realized then widget_realize_cb { s with realized := true }
  else s

/-- GTK unrealizes the desktop window and emits "unrealize". -/
def gtk_widget_unrealize (s : State) : State :=
  if s.details.widget.isSome && s.realized then widget_unrealize_cb { s with realized := false }
  else s

/-- GTK destroys the desktop window: it is unrealized first, then "destroy"
is emitted. -/
def gtk_widget_destroy (s : State) : State :=
  if s.details.widget.isSome then on_widget_destroyed (gtk_widget_unrealize s) else s

/-- What can happen to the controller between two turns of the main loop. -/
inductive Event where
  | settings_change_event
  | bg_changed
  | bg_transitioned
  | screen_size_changed
  | realize
  | unrealize
  | widget_destroyed
  | fade_finished
  | idle (id : Nat)
  | screen_resized (width height : Int)
  | window_resized (width height : Int)
  | fade_preference (enabled : Bool)
deriving DecidableEq, Repr

def step (s : State) (e : Event) : State :=
  match e with
  | Event.settings_change_event => background_settings_change_event_cb s
  | Event.bg_changed => nautilus_desktop_background_changed s
  | Event.bg_transitioned => nautilus_desktop_background_transitioned s
  | Event.screen_size_changed => screen_size_changed s
  | Event.realize => gtk_widget_realize s
  | Event.unrealize => gtk_widget_unrealize s
  | Event.widget_destroyed => gtk_widget_destroy s
  | Event.fade_finished => fade_finished s
  | Event.idle id => dispatch_idle s id
  | Event.screen_resized width height => { s with screen_width := width, screen_height := height }
  | Event.window_resized width height => { s with window_width := width, window_height := height }
  | Event.fade_preference enabled => { s with do_fade := enabled }

def run (s : State) (es : List Event) : State :=
  es.foldl step s

/-! ## main.c -/

/-- The process after `gtk_init` and `nautilus_desktop_window_new (screen)`:
the desktop window exists, requests the size of the screen and is not
realized; no controller exists yet and nothing is pending. -/
def boot (width height : Int) (do_fade : Bool) : State :=
  { details :=
      { widget := none
        bg := ⟨GDesktopBackgroundStyle.none, none⟩
        background_surface := none
        fade := none
        background_entire_width := 0
        background_entire_height := 0
        default_color := ⟨0, 0, 0⟩
        screen_size_handler := 0
        screen_monitors_handler := 0
        change_idle_id := 0 }
    ref_count := 0
    ignore_pending_change := false
    realized := false
    window_width := width
    window_height := height
    screen_width := width
    screen_height := height
    do_fade := do_fade
    root_surface := ⟨0, width, height⟩
    gnome_background_preferences := ⟨GDesktopBackgroundStyle.zoom, none⟩
    idle_sources := []
    next_source_id := 1
    next_surface_id := 1
    next_fade_id := 1
    next_handler_id := 1
    log := [] }

/-- The desktop window created by `nautilus_desktop_window_new`. -/
def desktop : Nat := 1

/-- The controller as `main` constructs it, before the window is shown. -/
def constructed_controller (width height : Int) (do_fade : Bool) : State :=
  nautilus_desktop_background_new (boot width height do_fade) desktop

/-- Function `main` up to the first turn of `gtk_main`: construct the
controller, show (realize) the window, run the pending render callback. -/
def main_startup (width height : Int) (do_fade : Bool) : State :=
  let s := constructed_controller width height do_fade
  let s := gtk_widget_realize s
  dispatch_idle s s.details.change_idle_id

/-! ## Observers on the call log -/

def root_writes (l : List Call) : List Surface :=
  l.filterMap fun c =>
    match c with
    | Call.gnome_bg_set_surface_as_root b => some b
    | _ => none

def pattern_sets (l : List Call) : List Surface :=
  l.filterMap fun c =>
    match c with
    | Call.gdk_window_set_background_pattern b => some b
    | _ => none

def surfaces_created (l : List Call) : List (Option Surface) :=
  l.filterMap fun c =>
    match c with
    | Call.gnome_bg_create_surface r _ _ => some r
    | _ => none

def surfaces_destroyed (l : List Call) : List Surface :=
  l.filterMap fun c =>
    match c with
    | Call.cairo_surface_destroy b => some b
    | _ => none

def fades_created (l : List Call) : List Nat :=
  l.filterMap fun c =>
    match c with
    | Call.gnome_bg_crossfade_new f _ _ => some f
    | _ => none

def fades_started (l : List Call) : List Nat :=
  l.filterMap fun c =>
    match c with
    | Call.gnome_bg_crossfade_start f => some f
    | _ => none

def fades_freed (l : List Call) : List Nat :=
  l.filterMap fun c =>
    match c with
    | Call.g_object_unref_fade f => some f
    | _ => none

def reloads (l : List Call) : List Unit :=
  l.filterMap fun c =>
    match c with
    | Call.gnome_bg_load_from_preferences => some ()
    | _ => none

/-- The calls logged after state `s` on the way to state `t`. -/
def calls_since (s t : State) : List Call :=
  t.log.drop s.log.length

/-- The pending idle sources that run `background_changed_cb`. -/
def pending_renders (s : State) : List Nat :=
  (s.idle_sources.filter (fun p => p.2 == IdleFn.background_changed_cb)).map Prod.fst

/-! ## Example states -/

/-- The controller after start-up on a 1920x1080 screen, fading disabled. -/
def started_plain : State := main_startup 1920 1080 false

/-- The controller after start-up on a 1920x1080 screen, fading enabled: the
fade created on realize is running. -/
def started_fading : State := main_startup 1920 1080 true

/-- The state `started_plain` after the fade preference has been switched on. -/
def fading_switched_on : State := step started_plain (Event.fade_preference true)

/-- A burst of notifications arriving within one turn of the main loop. -/
def burst_of_changes : List Event :=
  [Event.settings_change_event, Event.screen_size_changed, Event.bg_changed,
   Event.bg_transitioned, Event.realize]

/-- A stand-in for `g_filename_from_uri` that knows one file. -/
def sample_from_uri (uri : String) : Option String :=
  if uri = "file:///home/me/cat.png" then some "/home/me/cat.png" else none

/-- The state `fading_switched_on` after a "changed" signal: fade 1 has been
created and is not started, its render callback (idle source 2) is pending. -/
def fade_created_unstarted : State := step fading_switched_on Event.bg_changed

/-- A session after construction with fading enabled: realize, first render,
a wallpaper change, a resize to 2560x1440, the render for both, the end of
the fade and one more wallpaper change. -/
def busy_session : List Event :=
  [Event.realize, Event.idle 1, Event.bg_changed, Event.screen_resized 2560 1440,
   Event.screen_size_changed, Event.idle 3, Event.fade_finished,
   Event.window_resized 2560 1440, Event.bg_changed]

/-- Start-up followed by two settings notifications whose reloads are both
still pending. -/
def two_notifications : List Event :=
  [Event.realize, Event.idle 1, Event.settings_change_event, Event.settings_change_event]

/-- The state `fading_switched_on` on a screen and a window that report 0x0. -/
def zero_sized_screen : State :=
  run fading_switched_on [Event.screen_resized 0 0, Event.window_resized 0 0]

/-- The state `fade_created_unstarted` after the fade preference has been
switched off again: fade 1 still waits to be started. -/
def fade_waiting_preference_off : State :=
  step fade_created_unstarted (Event.fade_preference false)

/-- Two configuration changes in a row, each one followed by its deferred
reload (idle sources 2 and 4), the "changed" signal it causes and the render
callback that this schedules (idle sources 3 and 5). -/
def two_configuration_changes : List Event :=
  [Event.settings_change_event, Event.idle 2, Event.bg_changed, Event.idle 3,
   Event.settings_change_event, Event.idle 4, Event.bg_changed, Event.idle 5]

/-! ## The singleton

The file-scope pointer `singleton` and the live instances of the controller
class with their GObject reference counts. -/

/-- The process-wide data of the controller class. -/
structure Globals where
  /-- The variable `static NautilusDesktopBackground *singleton`. -/
  singleton : Option Nat
  /-- Live instances: address and reference count. -/
  instances : List (Nat × Nat)
  next_address : Nat
deriving DecidableEq, Repr

/-- Reference count of the instance at `p`, if it is alive. -/
def Globals.ref_count (g : Globals) (p : Nat) : Option Nat :=
  (g.instances.find? (fun q => q.1 == p)).map Prod.snd

/-- GObject call `g_object_ref (p)`. -/
def Globals.g_object_ref (g : Globals) (p : Nat) : Globals :=
  { g with instances := g.instances.map (fun q => if q.1 = p then (q.1, q.2 + 1) else q) }

/-- The parent class constructor: allocates a new instance holding one
reference. -/
def Globals.parent_constructor (g : Globals) : Nat × Globals :=
  (g.next_address,
    { g with
      instances := g.instances ++ [(g.next_address, 1)]
      next_address := g.next_address + 1 })

/-- GObject call `g_object_unref (p)`; when the last reference goes, the
instance is freed and the weak pointer registered by the constructor resets
`singleton`. -/
def Globals.g_object_unref (g : Globals) (p : Nat) : Globals :=
  match g.ref_count p with
  | none => g
  | some n =>
    if n ≤ 1 then
      { g with
        instances := g.instances.filter (fun q => q.1 != p)
        singleton := if g.singleton = some p then none else g.singleton }
    else
      { g with instances := g.instances.map (fun q => if q.1 = p then (q.1, q.2 - 1) else q) }

def nautilus_desktop_background_constructor (g : Globals) : Nat × Globals :=
  match g.singleton with
  | some p => (p, g.g_object_ref p)
  | none =>
    let r := g.parent_constructor
    (r.1, { r.2 with singleton := some r.1 })

/-- A process in which the controller at address 7 is alive with two
references. -/
def one_controller_alive : Globals :=
  { singleton := some 7, instances := [(7, 2)], next_address := 8 }

/-- A process in which no controller has been constructed yet. -/
def no_controller : Globals :=
  { singleton := none, instances := [], next_address := 1 }

/-! ## Deferred reloads -/

/-- Does event `e` make the main loop run a pending
`background_change_event_idle_cb`? -/
def dispatches_reload (s : State) (e : Event) : Bool :=
  match e with
  | Event.idle id =>
    match s.idle_sources.find? (fun p => p.1 == id) with
    | some p => p.2 == IdleFn.background_change_event_idle_cb
    | none => false
  | _ => false

/-- No event of `es`, played from `s`, runs a pending
`background_change_event_idle_cb`. -/
def no_reload_dispatched : State → List Event → Bool
  | _, [] => true
  | s, e :: es => !dispatches_reload s e && no_reload_dispatched (step s e) es

/-- The ids of the sources in `l` that run `background_change_event_idle_cb`. -/
def reload_ids (l : List (Nat × IdleFn)) : List Nat :=
  (l.filter (fun p => p.2 == IdleFn.background_change_event_idle_cb)).map Prod.fst

/-- The pending idle sources that run `background_change_event_idle_cb`: one
for each settings notification whose reload has not happened yet. -/
def pending_reloads (s : State) : List Nat :=
  reload_ids s.idle_sources

/-! ## desktop-window.c -/

/-- A `GdkEventAny`. -/
structure GdkEventAny where
  type : Nat
  send_event : Bool
deriving DecidableEq, Repr

def nautilus_desktop_window_delete_event (_widget : Nat) (_event : GdkEventAny) : Bool :=
  true

/-- The slot of `GtkWidgetClass` that `nautilus_desktop_window_class_init`
fills for delete requests; `none` is the inherited default, which handles
nothing. -/
structure GtkWidgetClass where
  delete_event : Option (Nat → GdkEventAny → Bool)

def nautilus_desktop_window_class_init (wclass : GtkWidgetClass) : GtkWidgetClass :=
  { wclass with delete_event := some nautilus_desktop_window_delete_event }

/-- GTK delivers a delete request of the window manager to the desktop window:
the class handler runs, and the window is destroyed unless the handler reports
the event as handled. -/
def gtk_deliver_delete (wclass : GtkWidgetClass) (s : State) (event : GdkEventAny) : State :=
  let handled :=
    match wclass.delete_event with
    | some handler => handler desktop event
    | none => false
  if handled then s else gtk_widget_destroy s

/-! ## Ownership of surfaces and fades, read off the call log -/

/-- One step of following the surface the controller owns along the log:
`some cur` is the surface owned so far (`cur = none` for none), and the result
is `none` once a surface is created while one is still owned, or a surface is
destroyed that is not the owned one. -/
def track_surface (owner : Option (Option Surface)) (c : Call) : Option (Option Surface) :=
  match owner with
  | none => none
  | some cur =>
    match c with
    | Call.gnome_bg_create_surface r _ _ => if cur.isSome then none else some r
    | Call.cairo_surface_destroy b => if cur = some b then some none else none
    | _ => some cur

/-- The surface owned at the end of log `l`, provided that all along `l` a
surface was created only while none was owned and only the owned surface was
destroyed. -/
def surface_owner (l : List Call) : Option (Option Surface) :=
  l.foldl track_surface (some none)

/-- One step of following the fade the controller owns along the log, in the
same way as `track_surface`. -/
def track_fade (owner : Option (Option Nat)) (c : Call) : Option (Option Nat) :=
  match owner with
  | none => none
  | some cur =>
    match c with
    | Call.gnome_bg_crossfade_new f _ _ => if cur.isSome then none else some (some f)
    | Call.g_object_unref_fade f => if cur = some f then some none else none
    | _ => some cur

/-- The fade owned at the end of log `l`, provided that all along `l` a fade
was created only while none was owned and only the owned fade was released. -/
def fade_owner (l : List Call) : Option (Option Nat) :=
  l.foldl track_fade (some none)

/-- The calls that neither create nor release a surface or a fade. -/
def ownership_neutral (c : Call) : Bool :=
  match c with
  | Call.gnome_bg_create_surface _ _ _ => false
  | Call.cairo_surface_destroy _ => false
  | Call.gnome_bg_crossfade_new _ _ _ => false
  | Call.g_object_unref_fade _ => false
  | _ => true

/-- Getting from `s` to `t` appends calls to the log that take the owned
surface and the owned fade of `s` to those of `t`. -/
def tracks (s t : State) : Prop :=
  ∃ l, t.log = s.log ++ l ∧
    l.foldl track_surface (some s.details.background_surface) =
      some t.details.background_surface ∧
    l.foldl track_fade (some (s.details.fade.map Crossfade.id)) =
      some (t.details.fade.map Crossfade.id)

/-! ## Invariants used in the proofs -/

/-- The part of the state the scheduling of renders depends on. -/
def idle_view (s : State) : List (Nat × IdleFn) × Nat × Nat :=
  (s.idle_sources, s.next_source_id, s.details.change_idle_id)

/-- The ids of the sources in `l` that run `background_changed_cb`. -/
def render_ids (l : List (Nat × IdleFn)) : List Nat :=
  (l.filter (fun p => p.2 == IdleFn.background_changed_cb)).map Prod.fst

/-- Bookkeeping invariant of the pending idle sources: the pending render
callbacks are exactly the one named by `change_idle_id` (none when it is 0),
source ids are pairwise distinct and below the next id handed out, which is
not 0. -/
def idle_ok (v : List (Nat × IdleFn) × Nat × Nat) : Prop :=
  render_ids v.1 = (if v.2.2 = 0 then [] else [v.2.2]) ∧
  (v.1.map Prod.fst).Nodup ∧
  (∀ p ∈ v.1, p.1 < v.2.1) ∧
  0 < v.2.1

/-- The states in which nothing has been rendered or installed and nothing
can be: the window is not realized and the controller holds no surface and no
fade. -/
def unrealized_quiet (s : State) : Prop :=
  s.realized = false ∧ s.details.fade = none ∧ s.details.background_surface = none ∧
  root_writes s.log = [] ∧ pattern_sets s.log = [] ∧ surfaces_created s.log = [] ∧
  fades_created s.log = []

/-- Invariant of the fade the controller holds: it has a start surface, and
its "finished" signal carries `free_fade`, followed by `on_fade_finished`
exactly when the fade has been started. -/
def fade_ok (s : State) : Prop :=
  ∀ f, s.details.fade = some f →
    f.start_surface.isSome = true ∧
    f.finished_handlers =
      FadeHandler.free_fade :: (if f.started then [FadeHandler.on_fade_finished] else [])

/-- The reference count of the controller built by `main`: the reference of
its creator plus one for every pending reload. -/
def ref_ok (s : State) : Prop :=
  s.ref_count = 1 + (pending_reloads s).length

/-! ## Frame lemmas: what scheduling a render leaves alone -/

theorem queue_background_change_frame (s : State) :
    ∃ id srcs nid lg, queue_background_change s =
      { s with details := { s.details with change_idle_id := id }
               idle_sources := srcs, next_source_id := nid, log := lg } := by
  unfold queue_background_change
  by_cases h : s.details.change_idle_id = 0
  · rw [if_neg (by simpa using h)]
    exact ⟨_, _, _, _, rfl⟩
  · rw [if_pos h]
    exact ⟨_, _, _, _, rfl⟩

theorem screen_size_changed_iterate_frame (n : Nat) (s : State) :
    ∃ id srcs nid lg, screen_size_changed^[n] s =
      { s with details := { s.details with change_idle_id := id }
               idle_sources := srcs, next_source_id := nid, log := lg } := by
  induction n generalizing s with
  | zero => exact ⟨s.details.change_idle_id, s.idle_sources, s.next_source_id, s.log, rfl⟩
  | succ k ih =>
    obtain ⟨i1, s1, n1, l1, h1⟩ := queue_background_change_frame s
    obtain ⟨i2, s2, n2, l2, h2⟩ := ih (screen_size_changed s)
    refine ⟨i2, s2, n2, l2, ?_⟩
    rw [Function.iterate_succ_apply, h2]
    simp only [screen_size_changed, h1]

/-! ## C1: geometry notifications with unchanged dimensions -/

/-- C1, as stated, fails: after start-up on an unchanged 1920x1080 screen one
geometry notification followed by the render callback it scheduled (idle
source 2) destroys surface 2 and creates surface 3, so `background_surface` is
a different object afterwards. -/
theorem C1_counterexample_surface_replaced :
    started_plain.realized = true ∧
    started_plain.details.background_surface = some ⟨2, 1920, 1080⟩ ∧
    started_plain.details.background_entire_width = started_plain.screen_width ∧
    started_plain.details.background_entire_height = started_plain.screen_height ∧
    (run started_plain [Event.screen_size_changed]).details.change_idle_id = 2 ∧
    (run started_plain [Event.screen_size_changed, Event.idle 2]).screen_width = 1920 ∧
    (run started_plain [Event.screen_size_changed, Event.idle 2]).screen_height = 1080 ∧
    (run started_plain [Event.screen_size_changed, Event.idle 2]).details.background_surface
      = some ⟨3, 1920, 1080⟩ ∧
    (run started_plain [Event.screen_size_changed, Event.idle 2]).details.background_surface
      ≠ started_plain.details.background_surface ∧
    surfaces_destroyed (calls_since started_plain
        (run started_plain [Event.screen_size_changed, Event.idle 2])) = [⟨2, 1920, 1080⟩] ∧
    surfaces_created (calls_since started_plain
        (run started_plain [Event.screen_size_changed, Event.idle 2])) =
      [some ⟨3, 1920, 1080⟩] := by
  decide

/-- C1, amended: for a realized controller holding surface `b`, on a screen
that reports a size other than 0x0, after any number of geometry notifications
the render callback destroys `b` and creates exactly one new surface of the
screen's size, which becomes `background_surface`; the remembered dimensions
are the screen's again. -/
theorem C1_render_callback_rerenders (s : State) (w : Nat) (b : Surface) (n : Nat)
    (hw : s.details.widget = some w) (hr : s.realized = true)
    (hb : s.details.background_surface = some b)
    (hz : ¬ (s.screen_width = 0 ∧ s.screen_height = 0)) :
    (background_changed_cb (screen_size_changed^[n] s)).details.background_surface =
        some ⟨s.next_surface_id, s.screen_width, s.screen_height⟩ ∧
    surfaces_destroyed (calls_since (screen_size_changed^[n] s)
        (background_changed_cb (screen_size_changed^[n] s))) = [b] ∧
    surfaces_created (calls_since (screen_size_changed^[n] s)
        (background_changed_cb (screen_size_changed^[n] s))) =
        [some ⟨s.next_surface_id, s.screen_width, s.screen_height⟩] ∧
    (background_changed_cb (screen_size_changed^[n] s)).details.background_entire_width =
        s.screen_width ∧
    (background_changed_cb (screen_size_changed^[n] s)).details.background_entire_height =
        s.screen_height := by
  obtain ⟨id, srcs, nid, lg, h⟩ := screen_size_changed_iterate_frame n s
  rw [h]
  cases hf : s.details.fade with
  | none =>
    simp [background_changed_cb, nautilus_desktop_background_unrealize, free_background_surface,
      nautilus_desktop_background_set_up_widget, nautilus_desktop_background_ensure_realized,
      fade_to_surface, gnome_bg_create_surface, gtk_widget_get_window, gtk_widget_get_realized,
      gtk_widget_get_screen, gdk_screen_get_width, gdk_screen_get_height, record,
      gnome_bg_set_surface_as_root, calls_since, surfaces_destroyed, surfaces_created,
      hw, hr, hb, hf, hz]
  | some f =>
    obtain ⟨fid, fw, fh, fs, fe, fst, fhs⟩ := f
    cases fs <;> cases fst <;>
    simp [background_changed_cb, nautilus_desktop_background_unrealize, free_background_surface,
      nautilus_desktop_background_set_up_widget, nautilus_desktop_background_ensure_realized,
      fade_to_surface, gnome_bg_create_surface, gtk_widget_get_window, gtk_widget_get_realized,
      gtk_widget_get_screen, gdk_screen_get_width, gdk_screen_get_height, record,
      gnome_bg_set_surface_as_root, calls_since, surfaces_destroyed, surfaces_created,
      gnome_bg_crossfade_set_end_surface, gnome_bg_crossfade_is_started, gnome_bg_crossfade_start,
      hw, hr, hb, hf, hz]

/-- C1, amended, at the start-up state after three geometry notifications. -/
theorem C1_render_callback_rerenders_witness :
    (started_plain.details.widget = some 1 ∧ started_plain.realized = true ∧
      started_plain.details.background_surface = some ⟨2, 1920, 1080⟩ ∧
      ¬ (started_plain.screen_width = 0 ∧ started_plain.screen_height = 0)) ∧
    ((background_changed_cb (screen_size_changed^[3] started_plain)).details.background_surface =
        some ⟨started_plain.next_surface_id, started_plain.screen_width,
          started_plain.screen_height⟩ ∧
    surfaces_destroyed (calls_since (screen_size_changed^[3] started_plain)
        (background_changed_cb (screen_size_changed^[3] started_plain))) = [⟨2, 1920, 1080⟩] ∧
    surfaces_created (calls_since (screen_size_changed^[3] started_plain)
        (background_changed_cb (screen_size_changed^[3] started_plain))) =
        [some ⟨started_plain.next_surface_id, started_plain.screen_width,
          started_plain.screen_height⟩] ∧
    (background_changed_cb (screen_size_changed^[3] started_plain)).details.background_entire_width
        = started_plain.screen_width ∧
    (background_changed_cb (screen_size_changed^[3] started_plain)).details.background_entire_height
        = started_plain.screen_height) :=
  ⟨by decide,
    C1_render_callback_rerenders started_plain 1 ⟨2, 1920, 1080⟩ 3
      (by decide) (by decide) (by decide) (by decide)⟩

/-! ## C2: at most one pending render callback -/

theorem pending_renders_eq (s : State) : pending_renders s = render_ids s.idle_sources := rfl

theorem render_ids_append (l m : List (Nat × IdleFn)) :
    render_ids (l ++ m) = render_ids l ++ render_ids m := by
  simp [render_ids]

theorem render_ids_remove (l : List (Nat × IdleFn)) (i : Nat) :
    render_ids (l.filter (fun p => p.1 != i)) = (render_ids l).filter (fun j => j != i) := by
  induction l with
  | nil => rfl
  | cons a l ih =>
    obtain ⟨j, f⟩ := a
    by_cases h1 : j = i <;> cases f <;> simp_all [render_ids, List.filter_cons]

theorem nodup_fst_unique {l : List (Nat × IdleFn)} (h : (l.map Prod.fst).Nodup)
    {a : Nat} {x y : IdleFn} (hx : (a, x) ∈ l) (hy : (a, y) ∈ l) : x = y := by
  induction l with
  | nil => cases hx
  | cons p l ih =>
    simp only [List.map_cons, List.nodup_cons, List.mem_map, not_exists, not_and] at h
    rcases List.mem_cons.1 hx with hx | hx <;> rcases List.mem_cons.1 hy with hy | hy
    · rw [← hx] at hy; exact (Prod.mk.inj hy).2.symm ▸ rfl
    · exact absurd (by rw [← hx]) (h.1 (a, y) hy)
    · exact absurd (by rw [← hy]) (h.1 (a, x) hx)
    · exact ih h.2 hx hy

theorem mem_render_ids {l : List (Nat × IdleFn)} {i : Nat} :
    i ∈ render_ids l ↔ (i, IdleFn.background_changed_cb) ∈ l := by
  simp only [render_ids, List.mem_map, List.mem_filter]
  constructor
  · rintro ⟨⟨j, f⟩, ⟨hm, hf⟩, rfl⟩
    cases f
    · exact hm
    · simp at hf
  · intro h
    exact ⟨_, ⟨h, by simp⟩, rfl⟩

theorem idle_ok_add_render {l : List (Nat × IdleFn)} {n c : Nat}
    (h : idle_ok (l, n, c)) (hc : render_ids l = []) :
    idle_ok (l ++ [(n, IdleFn.background_changed_cb)], n + 1, n) := by
  obtain ⟨_, h2, h3, h4⟩ := h
  refine ⟨?_, ?_, ?_, Nat.succ_pos _⟩
  · have hn : n ≠ 0 := Nat.pos_iff_ne_zero.1 h4
    rw [render_ids_append, hc]
    simp [render_ids, hn]
  · simp only [List.map_append, List.map_cons, List.map_nil]
    refine List.Nodup.append h2 (List.nodup_singleton _) ?_
    intro a ha hb
    simp only [List.mem_singleton] at hb
    obtain ⟨p, hp, rfl⟩ := List.mem_map.1 ha
    exact absurd hb (Nat.ne_of_lt (h3 p hp))
  · intro p hp
    rcases List.mem_append.1 hp with hp | hp
    · exact Nat.lt_succ_of_lt (h3 p hp)
    · simp only [List.mem_singleton] at hp
      simp [hp]

theorem idle_ok_add_reload {l : List (Nat × IdleFn)} {n c : Nat}
    (h : idle_ok (l, n, c)) :
    idle_ok (l ++ [(n, IdleFn.background_change_event_idle_cb)], n + 1, c) := by
  obtain ⟨h1, h2, h3, h4⟩ := h
  refine ⟨?_, ?_, ?_, Nat.succ_pos _⟩
  · rw [render_ids_append, h1]
    simp [render_ids]
  · simp only [List.map_append, List.map_cons, List.map_nil]
    refine List.Nodup.append h2 (List.nodup_singleton _) ?_
    intro a ha hb
    simp only [List.mem_singleton] at hb
    obtain ⟨p, hp, rfl⟩ := List.mem_map.1 ha
    exact absurd hb (Nat.ne_of_lt (h3 p hp))
  · intro p hp
    rcases List.mem_append.1 hp with hp | hp
    · exact Nat.lt_succ_of_lt (h3 p hp)
    · simp only [List.mem_singleton] at hp
      simp [hp]

theorem idle_ok_remove_current {l : List (Nat × IdleFn)} {n c : Nat}
    (h : idle_ok (l, n, c)) :
    idle_ok (l.filter (fun p => p.1 != c), n, 0) ∧
      render_ids (l.filter (fun p => p.1 != c)) = [] := by
  obtain ⟨h1, h2, h3, h4⟩ := h
  have hr : render_ids (l.filter (fun p => p.1 != c)) = [] := by
    rw [render_ids_remove, h1]
    by_cases hc : c = 0 <;> simp [hc]
  refine ⟨⟨by simpa using hr, ?_, ?_, h4⟩, hr⟩
  · exact h2.sublist ((List.filter_sublist _).map _)
  · intro p hp
    exact h3 p (List.mem_of_mem_filter hp)

theorem idle_ok_dispatch_reload {l : List (Nat × IdleFn)} {n c i : Nat}
    (h : idle_ok (l, n, c)) (hi : (i, IdleFn.background_change_event_idle_cb) ∈ l) :
    idle_ok (l.filter (fun p => p.1 != i), n, c) := by
  obtain ⟨h1, h2, h3, h4⟩ := h
  refine ⟨?_, h2.sublist ((List.filter_sublist _).map _), ?_, h4⟩
  · rw [render_ids_remove, ← h1]
    apply List.filter_eq_self.2
    intro j hj
    have hj' := mem_render_ids.1 hj
    by_cases hji : j = i
    · subst hji
      exact absurd (nodup_fst_unique h2 hj' hi) (by decide)
    · simpa using hji
  · intro p hp
    exact h3 p (List.mem_of_mem_filter hp)

theorem idle_ok_dispatch_render {l : List (Nat × IdleFn)} {n c i : Nat}
    (h : idle_ok (l, n, c)) (hi : (i, IdleFn.background_changed_cb) ∈ l) :
    i = c ∧ idle_ok (l.filter (fun p => p.1 != i), n, 0) := by
  have hm := mem_render_ids.2 hi
  have h1 := h.1
  simp only at h1
  rw [h1] at hm
  have hic : i = c := by
    by_cases hc : c = 0
    · simp [hc] at hm
    · simpa [hc] using hm
  subst hic
  exact ⟨rfl, (idle_ok_remove_current h).1⟩

@[simp]
theorem idle_view_record (s : State) (c : Call) : idle_view (record s c) = idle_view s := rfl

@[simp]
theorem idle_view_free_fade (s : State) : idle_view (free_fade s) = idle_view s := by
  unfold free_fade; split <;> rfl

@[simp]
theorem idle_view_free_background_surface (s : State) :
    idle_view (free_background_surface s) = idle_view s := by
  unfold free_background_surface; split <;> rfl

@[simp]
theorem idle_view_unrealize (s : State) :
    idle_view (nautilus_desktop_background_unrealize s) = idle_view s := by
  have h := idle_view_free_background_surface s
  simp only [idle_view, Prod.mk.injEq] at h ⊢
  simpa [nautilus_desktop_background_unrealize] using h

@[simp]
theorem idle_view_set_surface_as_root (s : State) (b : Surface) :
    idle_view (gnome_bg_set_surface_as_root s b) = idle_view s := rfl

@[simp]
theorem idle_view_create_surface (s : State) (w : Option GdkWindow) (a b : Int) :
    idle_view (gnome_bg_create_surface s w a b).2 = idle_view s := by
  unfold gnome_bg_create_surface; split <;> rfl

@[simp]
theorem idle_view_init_fade (s : State) : idle_view (init_fade s) = idle_view s := by
  unfold init_fade
  split_ifs <;> try rfl
  all_goals (cases hf : s.details.fade <;> simp only [] <;> split_ifs <;> try rfl)
  all_goals (repeat' split) <;> rfl

@[simp]
theorem idle_view_ensure_realized (s : State) :
    idle_view (nautilus_desktop_background_ensure_realized s).2 = idle_view s := by
  unfold nautilus_desktop_background_ensure_realized
  dsimp only
  split_ifs
  · rfl
  · have h := idle_view_create_surface (free_background_surface s)
      (gtk_widget_get_window (free_background_surface s) (free_background_surface s).details.widget)
      (gdk_screen_get_width (gtk_widget_get_screen s s.details.widget))
      (gdk_screen_get_height (gtk_widget_get_screen s s.details.widget))
    rw [idle_view_free_background_surface] at h
    simp only [idle_view, Prod.mk.injEq] at h ⊢
    exact h

@[simp]
theorem idle_view_on_fade_finished (s : State) :
    idle_view (on_fade_finished s) = idle_view s := by
  unfold on_fade_finished
  dsimp only
  split <;> simp

@[simp]
theorem idle_view_fade_to_surface (s : State) (w : Option GdkWindow) (b : Surface) :
    idle_view (fade_to_surface s w b).2 = idle_view s := by
  unfold fade_to_surface
  split
  · rfl
  · simp only []
    split_ifs <;> rfl

@[simp]
theorem idle_view_set_up_widget (s : State) :
    idle_view (nautilus_desktop_background_set_up_widget s) = idle_view s := by
  unfold nautilus_desktop_background_set_up_widget
  dsimp only
  split_ifs
  · rfl
  · split
    · simp
    · split_ifs <;> simp



@[simp]
theorem idle_view_background_changed_cb (s : State) :
    idle_view (background_changed_cb s) = (s.idle_sources, s.next_source_id, 0) := by
  unfold background_changed_cb
  simp
  rfl

@[simp]
theorem idle_view_widget_realize_cb (s : State) :
    idle_view (widget_realize_cb s) = idle_view s := by
  unfold widget_realize_cb
  simp
  rfl

@[simp]
theorem idle_view_widget_unrealize_cb (s : State) :
    idle_view (widget_unrealize_cb s) = idle_view s := by
  unfold widget_unrealize_cb
  dsimp only
  split_ifs <;> rfl

@[simp]
theorem idle_view_finalize (s : State) :
    idle_view (nautilus_desktop_background_finalize s) = idle_view s := by
  simp [nautilus_desktop_background_finalize]

@[simp]
theorem idle_view_g_object_unref (s : State) :
    idle_view (g_object_unref s) = idle_view s := by
  unfold g_object_unref
  dsimp only
  split_ifs
  · rw [idle_view_finalize]; rfl
  · rfl

@[simp]
theorem idle_view_background_change_event_idle_cb (s : State) :
    idle_view (background_change_event_idle_cb s) = idle_view s := by
  simp [background_change_event_idle_cb]
  rfl

@[simp]
theorem idle_view_run_fade_handler (s : State) (h : FadeHandler) :
    idle_view (run_fade_handler s h) = idle_view s := by
  cases h <;> simp [run_fade_handler]

theorem idle_view_foldl_fade_handlers (hs : List FadeHandler) (s : State) :
    idle_view (hs.foldl run_fade_handler s) = idle_view s := by
  induction hs generalizing s with
  | nil => rfl
  | cons h hs ih => rw [List.foldl_cons, ih, idle_view_run_fade_handler]

@[simp]
theorem idle_view_fade_finished (s : State) :
    idle_view (fade_finished s) = idle_view s := by
  unfold fade_finished
  split
  · rfl
  · exact idle_view_foldl_fade_handlers _ _

@[simp]
theorem idle_view_gtk_widget_realize (s : State) :
    idle_view (gtk_widget_realize s) = idle_view s := by
  unfold gtk_widget_realize
  split_ifs
  · rw [idle_view_widget_realize_cb]; rfl
  · rfl

@[simp]
theorem idle_view_gtk_widget_unrealize (s : State) :
    idle_view (gtk_widget_unrealize s) = idle_view s := by
  unfold gtk_widget_unrealize
  split_ifs
  · rw [idle_view_widget_unrealize_cb]; rfl
  · rfl

/-- The invariant `idle_ok` on the state. -/
theorem idle_ok_of_view_eq {s t : State} (h : idle_view t = idle_view s)
    (hs : idle_ok (idle_view s)) : idle_ok (idle_view t) := by
  rw [h]; exact hs

theorem idle_ok_queue_background_change (s : State) (h : idle_ok (idle_view s)) :
    idle_ok (idle_view (queue_background_change s)) ∧
    pending_renders (queue_background_change s) =
      [(queue_background_change s).details.change_idle_id] := by
  have hn : s.next_source_id ≠ 0 := Nat.pos_iff_ne_zero.1 h.2.2.2
  unfold queue_background_change
  by_cases hc : s.details.change_idle_id = 0
  · rw [if_neg (by simpa using hc)]
    have hr : render_ids s.idle_sources = [] := by
      have := h.1
      simpa [idle_view, hc] using this
    have := idle_ok_add_render h hr
    refine ⟨this, ?_⟩
    exact this.1.trans (by simp [idle_view, g_idle_add, hn])
  · rw [if_pos hc]
    obtain ⟨h1, h2⟩ := idle_ok_remove_current h
    have := idle_ok_add_render h1 h2
    refine ⟨this, ?_⟩
    exact this.1.trans (by simp [idle_view, g_idle_add, g_source_remove, record, hn])

theorem idle_ok_on_widget_destroyed (s : State) (h : idle_ok (idle_view s)) :
    idle_ok (idle_view (on_widget_destroyed s)) := by
  unfold on_widget_destroyed
  by_cases hc : s.details.change_idle_id = 0
  · rw [if_neg (by simpa using hc)]
    have : idle_view ({ free_fade s with details := { (free_fade s).details with widget := none } })
        = idle_view s := by
      rw [← idle_view_free_fade s]; rfl
    exact idle_ok_of_view_eq this h
  · rw [if_pos hc]
    have h1 := (idle_ok_remove_current h).1
    refine idle_ok_of_view_eq (s := { g_source_remove s s.details.change_idle_id with
      details := { (g_source_remove s s.details.change_idle_id).details with
        change_idle_id := 0 } }) ?_ h1
    dsimp only
    generalize ({ g_source_remove s s.details.change_idle_id with
      details := { (g_source_remove s s.details.change_idle_id).details with
        change_idle_id := 0 } } : State) = u
    rw [← idle_view_free_fade u]; rfl

theorem idle_ok_dispatch_idle (s : State) (id : Nat) (h : idle_ok (idle_view s)) :
    idle_ok (idle_view (dispatch_idle s id)) := by
  unfold dispatch_idle
  split
  · exact h
  · next p hp =>
    have hmem := List.mem_of_find?_eq_some hp
    have hid : p.1 = id := by simpa using List.find?_some hp
    obtain ⟨j, f⟩ := p
    simp only at hid
    subst hid
    cases f with
    | background_changed_cb =>
      have h2 := (idle_ok_dispatch_render h hmem).2
      have hv := idle_view_background_changed_cb s
      simp only [idle_view, Prod.mk.injEq] at hv
      simp only [run_idle, idle_view, hv]
      exact h2
    | background_change_event_idle_cb =>
      have h2 := idle_ok_dispatch_reload h hmem
      have hv := idle_view_background_change_event_idle_cb s
      simp only [idle_view, Prod.mk.injEq] at hv
      simp only [run_idle, idle_view, hv]
      exact h2

theorem idle_ok_step (s : State) (e : Event) (h : idle_ok (idle_view s)) :
    idle_ok (idle_view (step s e)) := by
  cases e with
  | settings_change_event =>
    exact idle_ok_add_reload h
  | bg_changed =>
    exact (idle_ok_queue_background_change _ (idle_ok_of_view_eq (idle_view_init_fade s) h)).1
  | bg_transitioned =>
    exact (idle_ok_queue_background_change _ (idle_ok_of_view_eq (idle_view_free_fade s) h)).1
  | screen_size_changed => exact (idle_ok_queue_background_change _ h).1
  | realize => exact idle_ok_of_view_eq (idle_view_gtk_widget_realize s) h
  | unrealize => exact idle_ok_of_view_eq (idle_view_gtk_widget_unrealize s) h
  | widget_destroyed =>
    simp only [step, gtk_widget_destroy]
    split_ifs
    · exact idle_ok_on_widget_destroyed _ (idle_ok_of_view_eq (idle_view_gtk_widget_unrealize s) h)
    · exact h
  | fade_finished => exact idle_ok_of_view_eq (idle_view_fade_finished s) h
  | idle id => exact idle_ok_dispatch_idle s id h
  | screen_resized _ _ => exact h
  | window_resized _ _ => exact h
  | fade_preference _ => exact h

theorem idle_ok_run (es : List Event) (s : State) (h : idle_ok (idle_view s)) :
    idle_ok (idle_view (run s es)) := by
  induction es generalizing s with
  | nil => exact h
  | cons e es ih => exact ih _ (idle_ok_step s e h)

theorem idle_ok_constructed_controller (width height : Int) (do_fade : Bool) :
    idle_ok (idle_view (constructed_controller width height do_fade)) := by
  refine (idle_ok_queue_background_change _ ?_).1
  refine ⟨rfl, List.nodup_nil, ?_, Nat.one_pos⟩
  intro p hp
  cases hp

theorem queue_supersedes (t : State) (h : idle_ok (idle_view t))
    (hc : t.details.change_idle_id ≠ 0) :
    (queue_background_change t).details.change_idle_id ≠ t.details.change_idle_id ∧
    t.details.change_idle_id ∉ (queue_background_change t).idle_sources.map Prod.fst := by
  have hlt : t.details.change_idle_id < t.next_source_id := by
    have hm : t.details.change_idle_id ∈ render_ids t.idle_sources := by
      have := h.1
      simp only [idle_view, hc, if_false] at this
      rw [this]; exact List.mem_singleton_self _
    exact h.2.2.1 _ (mem_render_ids.1 hm)
  unfold queue_background_change
  rw [if_pos hc]
  constructor
  · simp only [g_idle_add, g_source_remove, record]
    exact Nat.ne_of_gt hlt
  · simp only [g_idle_add, g_source_remove, record, List.map_append, List.mem_append,
      List.mem_map, List.mem_filter, List.map_cons, List.map_nil, List.mem_singleton]
    rintro (⟨p, ⟨_, hp⟩, hpe⟩ | hp)
    · simp [hpe] at hp
    · exact absurd hp (Nat.ne_of_lt hlt)

/-- C2: in every state reached from the constructed controller by any sequence
of events (settings change, "changed", "transitioned", geometry change,
realize, unrealize, widget destroy, fade finished, any idle source firing,
changes of screen size, window size or fade preference) at most one
`background_changed_cb` source is pending, `change_idle_id` is non-zero exactly
when one is pending (and then names it), and each handler that calls
`queue_background_change` while one is pending leaves exactly one pending
render source, a new one, the old one being gone from the main loop. -/
theorem C2_at_most_one_pending_render (width height : Int) (do_fade : Bool) (es : List Event) :
    let s := run (constructed_controller width height do_fade) es
    (pending_renders s).length ≤ 1 ∧
    (s.details.change_idle_id ≠ 0 ↔ pending_renders s = [s.details.change_idle_id]) ∧
    (s.details.change_idle_id = 0 ↔ pending_renders s = []) ∧
    (∀ e, e = Event.bg_changed ∨ e = Event.bg_transitioned ∨ e = Event.screen_size_changed →
      s.details.change_idle_id ≠ 0 →
        pending_renders (step s e) = [(step s e).details.change_idle_id] ∧
        (step s e).details.change_idle_id ≠ s.details.change_idle_id ∧
        s.details.change_idle_id ∉ (step s e).idle_sources.map Prod.fst) := by
  intro s
  have h : idle_ok (idle_view s) :=
    idle_ok_run es _ (idle_ok_constructed_controller width height do_fade)
  have h1 : pending_renders s =
      if s.details.change_idle_id = 0 then [] else [s.details.change_idle_id] := h.1
  refine ⟨?_, ?_, ?_, ?_⟩
  · rw [h1]; split_ifs <;> simp
  · rw [h1]
    by_cases hc : s.details.change_idle_id = 0 <;> simp [hc]
  · rw [h1]
    by_cases hc : s.details.change_idle_id = 0 <;> simp [hc]
  · intro e he hc
    have key : ∀ t : State, idle_view t = idle_view s →
        pending_renders (queue_background_change t) =
          [(queue_background_change t).details.change_idle_id] ∧
        (queue_background_change t).details.change_idle_id ≠ s.details.change_idle_id ∧
        s.details.change_idle_id ∉ (queue_background_change t).idle_sources.map Prod.fst := by
      intro t ht
      have hcid : t.details.change_idle_id = s.details.change_idle_id :=
        congrArg (fun v => v.2.2) ht
      have hok := idle_ok_of_view_eq ht h
      have hq := queue_supersedes t hok (by rw [hcid]; exact hc)
      rw [hcid] at hq
      exact ⟨(idle_ok_queue_background_change t hok).2, hq.1, hq.2⟩
    rcases he with rfl | rfl | rfl
    · exact key _ (idle_view_init_fade s)
    · exact key _ (idle_view_free_fade s)
    · exact key _ rfl

/-- C2 after a burst of five notifications following construction: the four
render requests (construction included) left one pending render callback,
source 5, next to the pending reload, source 2. -/
theorem C2_at_most_one_pending_render_witness :
    ((run (constructed_controller 1920 1080 true) burst_of_changes).idle_sources =
        [(2, IdleFn.background_change_event_idle_cb), (5, IdleFn.background_changed_cb)] ∧
      (run (constructed_controller 1920 1080 true) burst_of_changes).details.change_idle_id = 5 ∧
      pending_renders (step (run (constructed_controller 1920 1080 true) burst_of_changes)
        Event.screen_size_changed) = [6]) ∧
    ((pending_renders (run (constructed_controller 1920 1080 true) burst_of_changes)).length ≤ 1 ∧
    ((run (constructed_controller 1920 1080 true) burst_of_changes).details.change_idle_id ≠ 0 ↔
      pending_renders (run (constructed_controller 1920 1080 true) burst_of_changes) =
        [(run (constructed_controller 1920 1080 true) burst_of_changes).details.change_idle_id]) ∧
    ((run (constructed_controller 1920 1080 true) burst_of_changes).details.change_idle_id = 0 ↔
      pending_renders (run (constructed_controller 1920 1080 true) burst_of_changes) = []) ∧
    (∀ e, e = Event.bg_changed ∨ e = Event.bg_transitioned ∨ e = Event.screen_size_changed →
      (run (constructed_controller 1920 1080 true) burst_of_changes).details.change_idle_id ≠ 0 →
        pending_renders (step (run (constructed_controller 1920 1080 true) burst_of_changes) e) =
          [(step (run (constructed_controller 1920 1080 true) burst_of_changes)
            e).details.change_idle_id] ∧
        (step (run (constructed_controller 1920 1080 true) burst_of_changes)
          e).details.change_idle_id ≠
          (run (constructed_controller 1920 1080 true) burst_of_changes).details.change_idle_id ∧
        (run (constructed_controller 1920 1080 true) burst_of_changes).details.change_idle_id ∉
          (step (run (constructed_controller 1920 1080 true) burst_of_changes)
            e).idle_sources.map Prod.fst)) :=
  ⟨by decide, C2_at_most_one_pending_render 1920 1080 true burst_of_changes⟩

/-! ## C3: nothing is installed before realization -/

theorem unrealized_quiet_of_log {s t : State} (h : unrealized_quiet s) (l : List Call)
    (hl : t.log = s.log ++ l) (hr : t.realized = s.realized)
    (hf : t.details.fade = s.details.fade)
    (hb : t.details.background_surface = s.details.background_surface)
    (l1 : root_writes l = []) (l2 : pattern_sets l = []) (l3 : surfaces_created l = [])
    (l4 : fades_created l = []) : unrealized_quiet t := by
  obtain ⟨h1, h2, h3, h4, h5, h6, h7⟩ := h
  refine ⟨hr.trans h1, hf.trans h2, hb.trans h3, ?_, ?_, ?_, ?_⟩
  · rw [hl]; unfold root_writes at *; rw [List.filterMap_append, h4, l1]; rfl
  · rw [hl]; unfold pattern_sets at *; rw [List.filterMap_append, h5, l2]; rfl
  · rw [hl]; unfold surfaces_created at *; rw [List.filterMap_append, h6, l3]; rfl
  · rw [hl]; unfold fades_created at *; rw [List.filterMap_append, h7, l4]; rfl

theorem unrealized_quiet_queue (s : State) (h : unrealized_quiet s) :
    unrealized_quiet (queue_background_change s) := by
  unfold queue_background_change
  by_cases hc : s.details.change_idle_id = 0
  · rw [if_neg (by simpa using hc)]
    exact unrealized_quiet_of_log h [Call.g_idle_add s.next_source_id IdleFn.background_changed_cb]
      rfl rfl rfl rfl rfl rfl rfl rfl
  · rw [if_pos hc]
    refine unrealized_quiet_of_log h [Call.g_source_remove s.details.change_idle_id,
      Call.g_idle_add s.next_source_id IdleFn.background_changed_cb] ?_ rfl rfl rfl rfl rfl rfl rfl
    simp [g_idle_add, g_source_remove, record]

theorem unrealized_quiet_background_changed_cb (s : State) (h : unrealized_quiet s) :
    unrealized_quiet (background_changed_cb s) := by
  have h1 := h.1
  have h3 := h.2.2.1
  refine unrealized_quiet_of_log h [Call.gtk_widget_queue_draw s.details.widget] ?_ ?_ ?_ ?_
    rfl rfl rfl rfl <;>
  simp [background_changed_cb, nautilus_desktop_background_unrealize, free_background_surface,
    nautilus_desktop_background_set_up_widget, gtk_widget_get_realized, record, h1, h3]

theorem unrealized_quiet_reload (s : State) (h : unrealized_quiet s) :
    unrealized_quiet (background_change_event_idle_cb s) := by
  have h2 := h.2.1
  have h3 := h.2.2.1
  by_cases hrc : s.ref_count ≤ 1
  · refine unrealized_quiet_of_log h [Call.gnome_bg_load_from_preferences,
      Call.g_object_unref_self] ?_ ?_ ?_ ?_ rfl rfl rfl rfl <;>
    simp [background_change_event_idle_cb, g_object_unref, nautilus_desktop_background_finalize,
      free_background_surface, free_fade, record, gnome_bg_load_from_preferences, h2, h3, hrc]
  · refine unrealized_quiet_of_log h [Call.gnome_bg_load_from_preferences,
      Call.g_object_unref_self] ?_ ?_ ?_ ?_ rfl rfl rfl rfl <;>
    simp [background_change_event_idle_cb, g_object_unref, record,
      gnome_bg_load_from_preferences, hrc]

theorem unrealized_quiet_step (s : State) (e : Event) (he : e ≠ Event.realize)
    (h : unrealized_quiet s) : unrealized_quiet (step s e) := by
  have h1 := h.1
  have h2 := h.2.1
  cases e with
  | realize => exact absurd rfl he
  | settings_change_event =>
    exact unrealized_quiet_of_log h [Call.g_object_ref_self,
      Call.g_idle_add s.next_source_id IdleFn.background_change_event_idle_cb]
      (by simp [step, background_settings_change_event_cb, g_idle_add, g_object_ref, record])
      rfl rfl rfl rfl rfl rfl rfl
  | bg_changed =>
    have : init_fade s = s := by
      simp [init_fade, gtk_widget_get_realized, h1]
    simp only [step, nautilus_desktop_background_changed, this]
    exact unrealized_quiet_queue s h
  | bg_transitioned =>
    have : free_fade s = s := by
      simp [free_fade, h2]
    simp only [step, nautilus_desktop_background_transitioned, this]
    exact unrealized_quiet_queue s h
  | screen_size_changed => exact unrealized_quiet_queue s h
  | unrealize =>
    have : gtk_widget_unrealize s = s := by simp [gtk_widget_unrealize, h1]
    simp only [step, this]
    exact h
  | widget_destroyed =>
    have hu : gtk_widget_unrealize s = s := by simp [gtk_widget_unrealize, h1]
    simp only [step, gtk_widget_destroy, hu]
    split_ifs
    · unfold on_widget_destroyed
      by_cases hc : s.details.change_idle_id = 0
      · refine unrealized_quiet_of_log h [] ?_ ?_ ?_ ?_ rfl rfl rfl rfl <;>
        simp [hc, free_fade, h2]
      · refine unrealized_quiet_of_log h [Call.g_source_remove s.details.change_idle_id]
          ?_ ?_ ?_ ?_ rfl rfl rfl rfl <;>
        simp [hc, free_fade, g_source_remove, record, h2]
    · exact h
  | fade_finished =>
    simp only [step, fade_finished, h2]
    exact h
  | idle id =>
    simp only [step, dispatch_idle]
    split
    · exact h
    · next p hp =>
      have hk : unrealized_quiet (run_idle s p.2) := by
        cases p.2
        · exact unrealized_quiet_background_changed_cb s h
        · exact unrealized_quiet_reload s h
      exact unrealized_quiet_of_log hk [] (by simp) rfl rfl rfl rfl rfl rfl rfl
  | screen_resized _ _ => exact h
  | window_resized _ _ => exact h
  | fade_preference _ => exact h

theorem unrealized_quiet_run (es : List Event) (s : State) (he : Event.realize ∉ es)
    (h : unrealized_quiet s) : unrealized_quiet (run s es) := by
  induction es generalizing s with
  | nil => exact h
  | cons e es ih =>
    have h1 : e ≠ Event.realize := fun hc => he (hc ▸ List.mem_cons_self _ _)
    exact ih _ (fun hc => he (List.mem_cons_of_mem _ hc)) (unrealized_quiet_step s e h1 h)

theorem unrealized_quiet_constructed (width height : Int) (do_fade : Bool) :
    unrealized_quiet (constructed_controller width height do_fade) :=
  unrealized_quiet_queue _ ⟨rfl, rfl, rfl, rfl, rfl, rfl, rfl⟩

/-- C3: from the freshly constructed controller, whatever sequence of events
arrives that contains no realize of the window (in particular any number of
configuration changes, each followed by its deferred reload, the "changed"
handler and the scheduled render callback), no root-window background is
written, no window background pattern is set, no surface is created and no fade
is created. -/
theorem C3_no_install_before_realize (width height : Int) (do_fade : Bool) (es : List Event)
    (hes : Event.realize ∉ es) :
    root_writes (run (constructed_controller width height do_fade) es).log = [] ∧
    pattern_sets (run (constructed_controller width height do_fade) es).log = [] ∧
    surfaces_created (run (constructed_controller width height do_fade) es).log = [] ∧
    fades_created (run (constructed_controller width height do_fade) es).log = [] :=
  (unrealized_quiet_run es _ hes (unrealized_quiet_constructed width height do_fade)).2.2.2

/-- C3 on two full configuration changes before realization: all three
reloads (construction and the two changes) ran, nothing is left pending, and
nothing was rendered or installed. -/
theorem C3_no_install_before_realize_witness :
    (Event.realize ∉ two_configuration_changes ∧
      reloads (run (constructed_controller 1920 1080 true) two_configuration_changes).log
        = [(), (), ()] ∧
      (run (constructed_controller 1920 1080 true) two_configuration_changes).idle_sources
        = []) ∧
    (root_writes (run (constructed_controller 1920 1080 true) two_configuration_changes).log
        = [] ∧
    pattern_sets (run (constructed_controller 1920 1080 true) two_configuration_changes).log
        = [] ∧
    surfaces_created (run (constructed_controller 1920 1080 true) two_configuration_changes).log
        = [] ∧
    fades_created (run (constructed_controller 1920 1080 true) two_configuration_changes).log
        = []) :=
  ⟨by decide,
    C3_no_install_before_realize 1920 1080 true two_configuration_changes (by decide)⟩


/-! ## C4: `nautilus_desktop_background_ensure_realized` -/

/-- C4: with `W` x `H` the size the screen of the controller's widget reports,
`nautilus_desktop_background_ensure_realized` returns `FALSE` and changes
nothing when the remembered dimensions are `(W, H)`; otherwise it returns
`TRUE` after destroying the old surface if there is one and asking the library
once for a surface of `W` x `H` for the widget's window, whose result (a fresh
surface object when the window exists) it stores, and it remembers `(W, H)`. -/
theorem C4_ensure_realized (s : State) :
    let W := gdk_screen_get_width (gtk_widget_get_screen s s.details.widget)
    let H := gdk_screen_get_height (gtk_widget_get_screen s s.details.widget)
    let made : Option Surface :=
      if gtk_widget_get_realized s s.details.widget then some ⟨s.next_surface_id, W, H⟩ else none
    if W = s.details.background_entire_width ∧ H = s.details.background_entire_height then
      nautilus_desktop_background_ensure_realized s = (false, s)
    else
      (nautilus_desktop_background_ensure_realized s).1 = true ∧
      (nautilus_desktop_background_ensure_realized s).2.log =
        s.log ++ (s.details.background_surface.toList.map Call.cairo_surface_destroy
          ++ [Call.gnome_bg_create_surface made W H]) ∧
      (nautilus_desktop_background_ensure_realized s).2.details.background_surface = made ∧
      (nautilus_desktop_background_ensure_realized s).2.details.background_entire_width = W ∧
      (nautilus_desktop_background_ensure_realized s).2.details.background_entire_height = H := by
  intro W H made
  split_ifs with h
  · simp only [nautilus_desktop_background_ensure_realized]
    rw [if_pos ⟨h.1, h.2⟩]
  · simp only [nautilus_desktop_background_ensure_realized]
    rw [if_neg h]
    cases hb : s.details.background_surface <;> cases hw : s.details.widget <;>
      cases hr : s.realized <;>
      simp [free_background_surface, gnome_bg_create_surface, gtk_widget_get_window,
        gtk_widget_get_realized, record, hb, hw, hr, made, W, H, gtk_widget_get_screen,
        gdk_screen_get_width, gdk_screen_get_height]

/-- C4 at the start-up state, where the remembered dimensions are those of the
screen, and at the same state after the screen became 2560x1440. -/
theorem C4_ensure_realized_witness :
    (nautilus_desktop_background_ensure_realized started_plain = (false, started_plain)) ∧
    ((nautilus_desktop_background_ensure_realized
        (step started_plain (Event.screen_resized 2560 1440))).1 = true ∧
      (nautilus_desktop_background_ensure_realized
        (step started_plain (Event.screen_resized 2560 1440))).2.log =
        (step started_plain (Event.screen_resized 2560 1440)).log ++
          ([Call.cairo_surface_destroy ⟨2, 1920, 1080⟩] ++
            [Call.gnome_bg_create_surface (some ⟨3, 2560, 1440⟩) 2560 1440]) ∧
      (nautilus_desktop_background_ensure_realized
        (step started_plain (Event.screen_resized 2560 1440))).2.details.background_surface =
        some ⟨3, 2560, 1440⟩ ∧
      (nautilus_desktop_background_ensure_realized
        (step started_plain (Event.screen_resized 2560 1440))).2.details.background_entire_width
        = 2560 ∧
      (nautilus_desktop_background_ensure_realized
        (step started_plain (Event.screen_resized 2560 1440))).2.details.background_entire_height
        = 1440) :=
  ⟨C4_ensure_realized started_plain,
    C4_ensure_realized (step started_plain (Event.screen_resized 2560 1440))⟩

/-! ## The handlers connected to the controller's fade -/

theorem fade_free_background_surface (s : State) :
    (free_background_surface s).details.fade = s.details.fade := by
  unfold free_background_surface; split <;> rfl

theorem fade_unrealize (s : State) :
    (nautilus_desktop_background_unrealize s).details.fade = s.details.fade :=
  fade_free_background_surface s

theorem fade_create_surface (s : State) (w : Option GdkWindow) (a b : Int) :
    (gnome_bg_create_surface s w a b).2.details.fade = s.details.fade := by
  unfold gnome_bg_create_surface; split <;> rfl

theorem fade_ensure_realized (s : State) :
    (nautilus_desktop_background_ensure_realized s).2.details.fade = s.details.fade := by
  unfold nautilus_desktop_background_ensure_realized
  dsimp only
  split_ifs
  · rfl
  · exact (fade_create_surface _ _ _ _).trans (fade_free_background_surface s)

theorem fade_queue_background_change (s : State) :
    (queue_background_change s).details.fade = s.details.fade := by
  obtain ⟨id, srcs, nid, lg, h⟩ := queue_background_change_frame s
  rw [h]

theorem fade_ok_of_eq {s t : State} (h : t.details.fade = s.details.fade) (hs : fade_ok s) :
    fade_ok t := by
  intro f hf
  exact hs f (h ▸ hf)

theorem fade_ok_of_none {t : State} (h : t.details.fade = none) : fade_ok t := by
  intro f hf
  rw [h] at hf
  cases hf

theorem fade_free_fade (s : State) : (free_fade s).details.fade = none := by
  unfold free_fade
  split
  · rfl
  · next h => exact h

theorem fade_ok_init_fade (s : State) (h : fade_ok s) : fade_ok (init_fade s) := by
  cases hw : s.details.widget with
  | none =>
    have : init_fade s = s := by simp [init_fade, hw]
    rw [this]; exact h
  | some w =>
    cases hr : s.realized with
    | false =>
      have : init_fade s = s := by simp [init_fade, gtk_widget_get_realized, hr]
      rw [this]; exact h
    | true =>
      cases hd : s.do_fade with
      | false =>
        have : init_fade s = s := by simp [init_fade, gtk_widget_get_realized, hw, hr, hd]
        rw [this]; exact h
      | true =>
        cases hf : s.details.fade with
        | some f =>
          obtain ⟨h1, h2⟩ := h f hf
          cases hst : f.started with
          | true =>
            have : init_fade s = s := by
              simp [init_fade, gtk_widget_get_realized, gnome_bg_crossfade_is_started,
                hw, hr, hd, hf, hst]
            rw [this]; exact h
          | false =>
            intro g hg
            simp [init_fade, gtk_widget_get_realized, gnome_bg_crossfade_is_started,
              gnome_bg_crossfade_set_start_surface, record, hw, hr, hd, hf, hst] at hg
            subst hg
            simp [h2, hst]
        | none =>
          by_cases hc : s.window_width = s.screen_width ∧ s.window_height = s.screen_height
          · have hc1 := eq_true hc
            intro g hg
            simp [init_fade, gtk_widget_get_realized, gnome_bg_crossfade_is_started,
              gnome_bg_crossfade_set_start_surface, gnome_bg_crossfade_new, record,
              gtk_widget_get_window, gtk_widget_get_screen, gdk_window_get_width,
              gdk_window_get_height, gdk_screen_get_width, gdk_screen_get_height,
              hw, hr, hd, hf, hc1] at hg
            subst hg
            simp
          · have hc1 := eq_false hc
            have : init_fade s = s := by
              simp [init_fade, gtk_widget_get_realized, gnome_bg_crossfade_is_started,
                gtk_widget_get_window, gtk_widget_get_screen, gdk_window_get_width,
                gdk_window_get_height, gdk_screen_get_width, gdk_screen_get_height,
                hw, hr, hd, hf, hc1]
            rw [this]; exact h

theorem fade_ok_fade_to_surface (s : State) (win : GdkWindow) (b : Surface) (h : fade_ok s) :
    fade_ok (fade_to_surface s (some win) b).2 := by
  cases hf : s.details.fade with
  | none =>
    have : (fade_to_surface s (some win) b).2 = s := by simp [fade_to_surface, hf]
    rw [this]; exact h
  | some f =>
    obtain ⟨h1, h2⟩ := h f hf
    intro g hg
    cases hst : f.started <;>
      simp [fade_to_surface, gnome_bg_crossfade_set_end_surface, gnome_bg_crossfade_is_started,
        gnome_bg_crossfade_start, record, hf, hst, h1] at hg <;>
      subst hg <;> simp [h1, h2, hst]

theorem fade_ok_set_up_widget (s : State) (h : fade_ok s) :
    fade_ok (nautilus_desktop_background_set_up_widget s) := by
  unfold nautilus_desktop_background_set_up_widget
  dsimp only
  split_ifs with hr
  · exact h
  · have he : fade_ok (nautilus_desktop_background_ensure_realized s).2 :=
      fade_ok_of_eq (fade_ensure_realized s) h
    have hwin : ∃ win, gtk_widget_get_window (nautilus_desktop_background_ensure_realized s).2
        s.details.widget = some win := by
      have hr1 : gtk_widget_get_realized s s.details.widget = true := by simpa using hr
      cases hw : s.details.widget with
      | none => simp [gtk_widget_get_realized, hw] at hr1
      | some w =>
        simp only [gtk_widget_get_realized, hw, Option.isSome_some, Bool.true_and] at hr1
        have : (nautilus_desktop_background_ensure_realized s).2.realized = true := by
          unfold nautilus_desktop_background_ensure_realized
          dsimp only
          split_ifs
          · exact hr1
          · cases hb : s.details.background_surface <;>
              simp [free_background_surface, gnome_bg_create_surface, gtk_widget_get_window,
                gtk_widget_get_realized, record, hb, hw, hr1]
        exact ⟨⟨(nautilus_desktop_background_ensure_realized s).2.window_width,
          (nautilus_desktop_background_ensure_realized s).2.window_height⟩,
          by simp [gtk_widget_get_window, gtk_widget_get_realized, this]⟩
    obtain ⟨win, hwin⟩ := hwin
    rw [hwin]
    split
    · exact he
    · split_ifs
      · exact fade_ok_of_eq rfl (fade_ok_fade_to_surface _ win _ he)
      · exact fade_ok_fade_to_surface _ win _ he

theorem fade_ok_on_fade_finished (s : State) (h : fade_ok s) : fade_ok (on_fade_finished s) := by
  unfold on_fade_finished
  dsimp only
  split
  · exact fade_ok_of_eq (fade_ensure_realized s) h
  · exact fade_ok_of_eq (fade_ensure_realized s) h

theorem fade_ok_run_fade_handlers (hs : List FadeHandler) (s : State) (h : fade_ok s) :
    fade_ok (hs.foldl run_fade_handler s) := by
  induction hs generalizing s with
  | nil => exact h
  | cons a hs ih =>
    rw [List.foldl_cons]
    apply ih
    cases a
    · exact fade_ok_of_none (fade_free_fade s)
    · exact fade_ok_on_fade_finished s h

theorem fade_ok_background_changed_cb (s : State) (h : fade_ok s) :
    fade_ok (background_changed_cb s) := by
  unfold background_changed_cb
  exact fade_ok_of_eq rfl (fade_ok_set_up_widget _ (fade_ok_of_eq (fade_unrealize _) h))

theorem fade_ok_g_object_unref (s : State) (h : fade_ok s) : fade_ok (g_object_unref s) := by
  unfold g_object_unref
  dsimp only
  split_ifs
  · exact fade_ok_of_none (fade_free_fade _)
  · exact h

theorem fade_ok_step (s : State) (e : Event) (h : fade_ok s) : fade_ok (step s e) := by
  cases e with
  | settings_change_event => exact h
  | bg_changed =>
    exact fade_ok_of_eq (fade_queue_background_change _) (fade_ok_init_fade s h)
  | bg_transitioned =>
    exact fade_ok_of_none ((fade_queue_background_change _).trans (fade_free_fade s))
  | screen_size_changed => exact fade_ok_of_eq (fade_queue_background_change s) h
  | realize =>
    simp only [step, gtk_widget_realize]
    split_ifs
    · unfold widget_realize_cb
      exact fade_ok_set_up_widget _ (fade_ok_init_fade _ h)
    · exact h
  | unrealize =>
    simp only [step, gtk_widget_unrealize, widget_unrealize_cb]
    split_ifs <;> exact h
  | widget_destroyed =>
    simp only [step, gtk_widget_destroy]
    split_ifs
    · unfold on_widget_destroyed
      exact fade_ok_of_none (fade_free_fade _)
    · exact h
  | fade_finished =>
    simp only [step, fade_finished]
    split
    · exact h
    · exact fade_ok_run_fade_handlers _ s h
  | idle id =>
    simp only [step, dispatch_idle]
    split
    · exact h
    · next p hp =>
      refine fade_ok_of_eq rfl ?_
      cases p.2
      · exact fade_ok_background_changed_cb s h
      · exact fade_ok_g_object_unref _ h
  | screen_resized _ _ => exact h
  | window_resized _ _ => exact h
  | fade_preference _ => exact h

/-- Every fade the controller holds in a state reached from construction has
a start surface and carries `free_fade`, followed by `on_fade_finished`
exactly when it has been started. -/
theorem fade_ok_reachable (width height : Int) (do_fade : Bool) (es : List Event) :
    fade_ok (run (constructed_controller width height do_fade) es) := by
  have h0 : fade_ok (constructed_controller width height do_fade) :=
    fade_ok_of_none (fade_queue_background_change _)
  generalize constructed_controller width height do_fade = s at h0
  induction es generalizing s with
  | nil => exact h0
  | cons e es ih => exact ih _ (fade_ok_step s e h0)

/-! ## C5: the "finished" signal of a started fade -/

/-- C5, as stated, fails: the fade of the start-up with fading enabled was
started through `fade_to_surface`; when it finishes the controller writes its
surface once as the root background and drops the fade, but it makes no
`gdk_window_set_background_pattern` call at all. -/
theorem C5_counterexample_no_pattern_on_finish :
    started_fading.details.background_surface = some ⟨2, 1920, 1080⟩ ∧
    started_fading.details.fade =
      some ⟨1, 1920, 1080, some ⟨0, 1920, 1080⟩, some ⟨2, 1920, 1080⟩, true,
        [FadeHandler.free_fade, FadeHandler.on_fade_finished]⟩ ∧
    fades_started started_fading.log = [1] ∧
    calls_since started_fading (fade_finished started_fading) =
      [Call.g_object_unref_fade 1, Call.gnome_bg_set_surface_as_root ⟨2, 1920, 1080⟩] ∧
    (pattern_sets (calls_since started_fading (fade_finished started_fading))).length ≠ 1 := by
  decide

theorem fade_finished_with_both_handlers (s : State) (f : Crossfade)
    (hf : s.details.fade = some f)
    (hh : f.finished_handlers = [FadeHandler.free_fade, FadeHandler.on_fade_finished]) :
    (fade_finished s).details.fade = none ∧
    pattern_sets (calls_since s (fade_finished s)) = [] ∧
    root_writes (calls_since s (fade_finished s)) =
      (fade_finished s).details.background_surface.toList ∧
    fades_created (calls_since s (fade_finished s)) = [] := by
  have h0 : fade_finished s = on_fade_finished (free_fade s) := by
    simp [fade_finished, hf, hh, run_fade_handler]
  rw [h0]
  cases hw : s.details.widget with
  | none =>
    by_cases hd : (0 : Int) = s.details.background_entire_width ∧
        (0 : Int) = s.details.background_entire_height
    · have hd1 := eq_true hd
      cases hb : s.details.background_surface <;>
      simp [on_fade_finished, free_fade, nautilus_desktop_background_ensure_realized, hf, hb,
        record, gnome_bg_set_surface_as_root, calls_since, pattern_sets, root_writes,
        fades_created, hd1, free_background_surface, gnome_bg_create_surface,
        gtk_widget_get_window, gtk_widget_get_realized, hw, gtk_widget_get_screen,
        gdk_screen_get_width, gdk_screen_get_height]
    · have hd1 := eq_false hd
      cases hb : s.details.background_surface <;>
      simp [on_fade_finished, free_fade, nautilus_desktop_background_ensure_realized, hf, hb,
        record, gnome_bg_set_surface_as_root, calls_since, pattern_sets, root_writes,
        fades_created, hd1, free_background_surface, gnome_bg_create_surface,
        gtk_widget_get_window, gtk_widget_get_realized, hw, gtk_widget_get_screen,
        gdk_screen_get_width, gdk_screen_get_height]
  | some w =>
    by_cases hd : s.screen_width = s.details.background_entire_width ∧
        s.screen_height = s.details.background_entire_height
    · have hd1 := eq_true hd
      cases hb : s.details.background_surface <;> cases hr : s.realized <;>
      simp [on_fade_finished, free_fade, nautilus_desktop_background_ensure_realized, hf, hb,
        record, gnome_bg_set_surface_as_root, calls_since, pattern_sets, root_writes,
        fades_created, hd1, free_background_surface, gnome_bg_create_surface,
        gtk_widget_get_window, gtk_widget_get_realized, hw, hr, gtk_widget_get_screen,
        gdk_screen_get_width, gdk_screen_get_height]
    · have hd1 := eq_false hd
      cases hb : s.details.background_surface <;> cases hr : s.realized <;>
      simp [on_fade_finished, free_fade, nautilus_desktop_background_ensure_realized, hf, hb,
        record, gnome_bg_set_surface_as_root, calls_since, pattern_sets, root_writes,
        fades_created, hd1, free_background_surface, gnome_bg_create_surface,
        gtk_widget_get_window, gtk_widget_get_realized, hw, hr, gtk_widget_get_screen,
        gdk_screen_get_width, gdk_screen_get_height]

/-- C5, amended: in every state reached from construction in which the
controller holds a started fade (fades are started only by `fade_to_surface`),
delivery of that fade's "finished" signal leaves the controller without a fade
and makes it write the root-window background exactly once, with the surface
it then holds (not at all when it holds none); it sets no window background
pattern and creates no fade. -/
theorem C5_fade_finished_installs_root (width height : Int) (do_fade : Bool) (es : List Event)
    (f : Crossfade)
    (hf : (run (constructed_controller width height do_fade) es).details.fade = some f)
    (hs : f.started = true) :
    (fade_finished (run (constructed_controller width height do_fade) es)).details.fade = none ∧
    pattern_sets (calls_since (run (constructed_controller width height do_fade) es)
      (fade_finished (run (constructed_controller width height do_fade) es))) = [] ∧
    root_writes (calls_since (run (constructed_controller width height do_fade) es)
      (fade_finished (run (constructed_controller width height do_fade) es))) =
      (fade_finished
        (run (constructed_controller width height do_fade) es)).details.background_surface.toList ∧
    fades_created (calls_since (run (constructed_controller width height do_fade) es)
      (fade_finished (run (constructed_controller width height do_fade) es))) = [] := by
  have h := (fade_ok_reachable width height do_fade es f hf).2
  rw [hs, if_pos rfl] at h
  exact fade_finished_with_both_handlers _ f hf h

/-- C5, amended, at the fade of the start-up with fading enabled: it was
started when the window was realized and finishes after the first render
callback. -/
theorem C5_fade_finished_installs_root_witness :
    ((run (constructed_controller 1920 1080 true) [Event.realize, Event.idle 1]).details.fade =
      some ⟨1, 1920, 1080, some ⟨0, 1920, 1080⟩, some ⟨2, 1920, 1080⟩, true,
        [FadeHandler.free_fade, FadeHandler.on_fade_finished]⟩ ∧
      run (constructed_controller 1920 1080 true) [Event.realize, Event.idle 1] = started_fading ∧
      root_writes (calls_since started_fading (fade_finished started_fading)) =
        [⟨2, 1920, 1080⟩]) ∧
    ((fade_finished
      (run (constructed_controller 1920 1080 true) [Event.realize, Event.idle 1])).details.fade
        = none ∧
    pattern_sets (calls_since
      (run (constructed_controller 1920 1080 true) [Event.realize, Event.idle 1])
      (fade_finished
        (run (constructed_controller 1920 1080 true) [Event.realize, Event.idle 1]))) = [] ∧
    root_writes (calls_since
      (run (constructed_controller 1920 1080 true) [Event.realize, Event.idle 1])
      (fade_finished
        (run (constructed_controller 1920 1080 true) [Event.realize, Event.idle 1]))) =
      (fade_finished (run (constructed_controller 1920 1080 true)
        [Event.realize, Event.idle 1])).details.background_surface.toList ∧
    fades_created (calls_since
      (run (constructed_controller 1920 1080 true) [Event.realize, Event.idle 1])
      (fade_finished
        (run (constructed_controller 1920 1080 true) [Event.realize, Event.idle 1]))) = []) :=
  ⟨by decide,
    C5_fade_finished_installs_root 1920 1080 true [Event.realize, Event.idle 1]
      ⟨1, 1920, 1080, some ⟨0, 1920, 1080⟩, some ⟨2, 1920, 1080⟩, true,
        [FadeHandler.free_fade, FadeHandler.on_fade_finished]⟩ (by decide) rfl⟩

/-! ## C6: a change of screen size -/

/-- C6, as stated, fails for a controller that holds a fade. First case: after
start-up on 1920x1080 with the fade preference switched on, a "changed" signal
creates a fade; when the screen then becomes 2560x1440 the geometry
notification and the render callback it schedules (idle source 3) render the
new surface but start that fade on it and install nothing directly. Second
case: after start-up with fading enabled the fade started on realize is still
running; the same resize makes the render callback hand the new surface to the
running fade and again install nothing directly. -/
theorem C6_counterexample_pending_fade :
    (run started_plain [Event.fade_preference true, Event.bg_changed]).realized = true ∧
    (run started_plain [Event.fade_preference true, Event.bg_changed]).details.background_surface
      = some ⟨2, 1920, 1080⟩ ∧
    (run started_plain [Event.fade_preference true, Event.bg_changed]).details.fade
      = some ⟨1, 1920, 1080, some ⟨2, 1920, 1080⟩, none, false, [FadeHandler.free_fade]⟩ ∧
    calls_since (run started_plain [Event.fade_preference true, Event.bg_changed])
      (run started_plain [Event.fade_preference true, Event.bg_changed,
        Event.screen_resized 2560 1440, Event.screen_size_changed, Event.idle 3]) =
      [Call.g_source_remove 2, Call.g_idle_add 3 IdleFn.background_changed_cb,
       Call.cairo_surface_destroy ⟨2, 1920, 1080⟩,
       Call.gnome_bg_create_surface (some ⟨3, 2560, 1440⟩) 2560 1440,
       Call.gnome_bg_crossfade_set_end_surface 1 ⟨3, 2560, 1440⟩,
       Call.gnome_bg_crossfade_start 1,
       Call.gtk_widget_queue_draw (some 1)] ∧
    started_fading.realized = true ∧
    started_fading.details.background_surface = some ⟨2, 1920, 1080⟩ ∧
    calls_since started_fading
      (run started_fading
        [Event.screen_resized 2560 1440, Event.screen_size_changed, Event.idle 2]) =
      [Call.g_idle_add 2 IdleFn.background_changed_cb,
       Call.cairo_surface_destroy ⟨2, 1920, 1080⟩,
       Call.gnome_bg_create_surface (some ⟨3, 2560, 1440⟩) 2560 1440,
       Call.gnome_bg_crossfade_set_end_surface 1 ⟨3, 2560, 1440⟩,
       Call.gtk_widget_queue_draw (some 1)] := by
  decide

/-- C6, amended: for a realized controller that holds surface `b` and no fade,
whatever the fade preference, once the screen reports a new size `W1` x `H1`
(not 0x0) the geometry notification followed by the render callback makes
exactly these calls after scheduling: destroy `b`, create a surface of
`W1` x `H1`, set it as the window background pattern, set it as the root
background, queue a redraw; no fade is created or started and the controller
holds the new surface and still no fade. -/
theorem C6_resize_renders_and_installs (s : State) (w : Nat) (b : Surface) (W1 H1 : Int)
    (hw : s.details.widget = some w) (hr : s.realized = true)
    (hb : s.details.background_surface = some b) (hf : s.details.fade = none)
    (hz : ¬ (W1 = 0 ∧ H1 = 0)) :
    calls_since (screen_size_changed (step s (Event.screen_resized W1 H1)))
        (background_changed_cb (screen_size_changed (step s (Event.screen_resized W1 H1)))) =
      [Call.cairo_surface_destroy b,
       Call.gnome_bg_create_surface (some ⟨s.next_surface_id, W1, H1⟩) W1 H1,
       Call.gdk_window_set_background_pattern ⟨s.next_surface_id, W1, H1⟩,
       Call.gnome_bg_set_surface_as_root ⟨s.next_surface_id, W1, H1⟩,
       Call.gtk_widget_queue_draw (some w)] ∧
    (background_changed_cb (screen_size_changed (step s (Event.screen_resized W1 H1)))).details.background_surface
      = some ⟨s.next_surface_id, W1, H1⟩ ∧
    (background_changed_cb (screen_size_changed (step s (Event.screen_resized W1 H1)))).details.fade
      = none ∧
    (background_changed_cb (screen_size_changed (step s (Event.screen_resized W1 H1)))).root_surface
      = ⟨s.next_surface_id, W1, H1⟩ := by
  obtain ⟨id, srcs, nid, lg, h⟩ :=
    queue_background_change_frame (step s (Event.screen_resized W1 H1))
  have hz1 := eq_false hz
  rw [screen_size_changed, h]
  simp [step, background_changed_cb, nautilus_desktop_background_unrealize,
    free_background_surface, nautilus_desktop_background_set_up_widget,
    nautilus_desktop_background_ensure_realized, fade_to_surface, gnome_bg_create_surface,
    gtk_widget_get_window, gtk_widget_get_realized, gtk_widget_get_screen, gdk_screen_get_width,
    gdk_screen_get_height, record, gnome_bg_set_surface_as_root, calls_since, hw, hr, hb, hf, hz1]

/-- C6, amended, on the resize from 1920x1080 to 2560x1440 with the fade
preference switched on. -/
theorem C6_resize_renders_and_installs_witness :
    (fading_switched_on.details.widget = some 1 ∧ fading_switched_on.realized = true ∧
      fading_switched_on.do_fade = true ∧
      fading_switched_on.details.background_surface = some ⟨2, 1920, 1080⟩ ∧
      fading_switched_on.details.fade = none ∧ fading_switched_on.next_surface_id = 3 ∧
      ¬ ((2560 : Int) = 0 ∧ (1440 : Int) = 0)) ∧
    (calls_since
        (screen_size_changed (step fading_switched_on (Event.screen_resized 2560 1440)))
        (background_changed_cb
          (screen_size_changed (step fading_switched_on (Event.screen_resized 2560 1440)))) =
      [Call.cairo_surface_destroy ⟨2, 1920, 1080⟩,
       Call.gnome_bg_create_surface (some ⟨fading_switched_on.next_surface_id, 2560, 1440⟩)
        2560 1440,
       Call.gdk_window_set_background_pattern ⟨fading_switched_on.next_surface_id, 2560, 1440⟩,
       Call.gnome_bg_set_surface_as_root ⟨fading_switched_on.next_surface_id, 2560, 1440⟩,
       Call.gtk_widget_queue_draw (some 1)] ∧
    (background_changed_cb (screen_size_changed
        (step fading_switched_on (Event.screen_resized 2560 1440)))).details.background_surface
      = some ⟨fading_switched_on.next_surface_id, 2560, 1440⟩ ∧
    (background_changed_cb (screen_size_changed
        (step fading_switched_on (Event.screen_resized 2560 1440)))).details.fade
      = none ∧
    (background_changed_cb (screen_size_changed
        (step fading_switched_on (Event.screen_resized 2560 1440)))).root_surface
      = ⟨fading_switched_on.next_surface_id, 2560, 1440⟩) :=
  ⟨by decide,
    C6_resize_renders_and_installs fading_switched_on 1 ⟨2, 1920, 1080⟩ 2560 1440
      (by decide) (by decide) (by decide) (by decide) (by decide)⟩

/-! ## C7: a configuration change with fading enabled -/

/-- C7, as stated, fails in its last part. First case: on the 1920x1080
screen, a "changed" signal, the render callback and the end of the fade make
the calls listed; the new surface 3 is written as root background when the
fade finishes, but the controller never sets it as the window background
pattern. Second case: on a screen and window of 0x0 the render callback
destroys the old surface and renders nothing, and the fade is not started. -/
theorem C7_counterexample_root_only :
    (fading_switched_on.realized = true ∧ fading_switched_on.do_fade = true ∧
      fading_switched_on.details.fade = none ∧
      fading_switched_on.window_width = fading_switched_on.screen_width ∧
      fading_switched_on.window_height = fading_switched_on.screen_height ∧
      fading_switched_on.details.background_surface = some ⟨2, 1920, 1080⟩) ∧
    calls_since fading_switched_on
        (fade_finished (background_changed_cb
          (nautilus_desktop_background_changed fading_switched_on))) =
      [Call.gnome_bg_crossfade_new 1 1920 1080,
       Call.gnome_bg_crossfade_set_start_surface 1 ⟨2, 1920, 1080⟩,
       Call.g_idle_add 2 IdleFn.background_changed_cb,
       Call.cairo_surface_destroy ⟨2, 1920, 1080⟩,
       Call.gnome_bg_create_surface (some ⟨3, 1920, 1080⟩) 1920 1080,
       Call.gnome_bg_crossfade_set_end_surface 1 ⟨3, 1920, 1080⟩,
       Call.gnome_bg_crossfade_start 1,
       Call.gtk_widget_queue_draw (some 1),
       Call.g_object_unref_fade 1,
       Call.gnome_bg_set_surface_as_root ⟨3, 1920, 1080⟩] ∧
    pattern_sets (calls_since fading_switched_on
        (fade_finished (background_changed_cb
          (nautilus_desktop_background_changed fading_switched_on)))) = [] ∧
    (zero_sized_screen.realized = true ∧ zero_sized_screen.do_fade = true ∧
      zero_sized_screen.details.fade = none ∧
      zero_sized_screen.window_width = zero_sized_screen.screen_width ∧
      zero_sized_screen.window_height = zero_sized_screen.screen_height ∧
      zero_sized_screen.details.background_surface = some ⟨2, 1920, 1080⟩) ∧
    calls_since zero_sized_screen
        (background_changed_cb (nautilus_desktop_background_changed zero_sized_screen)) =
      [Call.gnome_bg_crossfade_new 1 0 0,
       Call.gnome_bg_crossfade_set_start_surface 1 ⟨2, 1920, 1080⟩,
       Call.g_idle_add 2 IdleFn.background_changed_cb,
       Call.cairo_surface_destroy ⟨2, 1920, 1080⟩,
       Call.gtk_widget_queue_draw (some 1)] ∧
    (background_changed_cb
        (nautilus_desktop_background_changed zero_sized_screen)).details.fade =
      some ⟨1, 0, 0, some ⟨2, 1920, 1080⟩, none, false, [FadeHandler.free_fade]⟩ := by
  decide

/-- C7, amended: on a realized window whose size equals the screen size `W` x
`H`, other than 0x0, with the fade preference on and no fade present, the
"changed" handler creates exactly one fade of `W` x `H` whose start surface is
the controller's surface (the root window's surface when it holds none) and
which is not started; the render callback that follows renders a new surface,
makes it the end surface of that fade and starts the fade, setting neither the
window pattern nor the root background; when the fade finishes the controller
writes the new surface as the root background and holds no fade. In none of
the three steps does the controller set the window background pattern. -/
theorem C7_configuration_change_fades (s : State) (w : Nat)
    (hw : s.details.widget = some w) (hr : s.realized = true)
    (hww : s.window_width = s.screen_width) (hwh : s.window_height = s.screen_height)
    (hd : s.do_fade = true) (hf : s.details.fade = none)
    (hz : ¬ (s.screen_width = 0 ∧ s.screen_height = 0)) :
    (nautilus_desktop_background_changed s).details.fade =
      some ⟨s.next_fade_id, s.screen_width, s.screen_height,
        some (s.details.background_surface.getD s.root_surface), none, false,
        [FadeHandler.free_fade]⟩ ∧
    fades_created (calls_since s (nautilus_desktop_background_changed s)) = [s.next_fade_id] ∧
    pattern_sets (calls_since s (nautilus_desktop_background_changed s)) = [] ∧
    (background_changed_cb (nautilus_desktop_background_changed s)).details.background_surface =
      some ⟨s.next_surface_id, s.screen_width, s.screen_height⟩ ∧
    (background_changed_cb (nautilus_desktop_background_changed s)).details.fade =
      some ⟨s.next_fade_id, s.screen_width, s.screen_height,
        some (s.details.background_surface.getD s.root_surface),
        some ⟨s.next_surface_id, s.screen_width, s.screen_height⟩, true,
        [FadeHandler.free_fade, FadeHandler.on_fade_finished]⟩ ∧
    calls_since (nautilus_desktop_background_changed s)
        (background_changed_cb (nautilus_desktop_background_changed s)) =
      s.details.background_surface.toList.map Call.cairo_surface_destroy ++
      [Call.gnome_bg_create_surface (some ⟨s.next_surface_id, s.screen_width, s.screen_height⟩)
          s.screen_width s.screen_height,
       Call.gnome_bg_crossfade_set_end_surface s.next_fade_id
          ⟨s.next_surface_id, s.screen_width, s.screen_height⟩,
       Call.gnome_bg_crossfade_start s.next_fade_id,
       Call.gtk_widget_queue_draw (some w)] ∧
    calls_since (background_changed_cb (nautilus_desktop_background_changed s))
        (fade_finished (background_changed_cb (nautilus_desktop_background_changed s))) =
      [Call.g_object_unref_fade s.next_fade_id,
       Call.gnome_bg_set_surface_as_root ⟨s.next_surface_id, s.screen_width, s.screen_height⟩] ∧
    (fade_finished (background_changed_cb
        (nautilus_desktop_background_changed s))).details.fade = none ∧
    (fade_finished (background_changed_cb
        (nautilus_desktop_background_changed s))).root_surface =
      ⟨s.next_surface_id, s.screen_width, s.screen_height⟩ ∧
    pattern_sets (calls_since (nautilus_desktop_background_changed s)
        (background_changed_cb (nautilus_desktop_background_changed s))) = [] ∧
    pattern_sets (calls_since (background_changed_cb (nautilus_desktop_background_changed s))
        (fade_finished (background_changed_cb (nautilus_desktop_background_changed s)))) = [] := by
  have hz1 := eq_false hz
  have hi : init_fade s =
      { s with
        details := { s.details with
          fade := some ⟨s.next_fade_id, s.screen_width, s.screen_height,
            some (s.details.background_surface.getD s.root_surface), none, false,
            [FadeHandler.free_fade]⟩ }
        next_fade_id := s.next_fade_id + 1
        log := s.log ++ [Call.gnome_bg_crossfade_new s.next_fade_id s.screen_width s.screen_height,
          Call.gnome_bg_crossfade_set_start_surface s.next_fade_id
            (s.details.background_surface.getD s.root_surface)] } := by
    cases hb : s.details.background_surface <;>
    simp [init_fade, gtk_widget_get_realized, gtk_widget_get_window, gtk_widget_get_screen,
      gdk_window_get_width, gdk_window_get_height, gdk_screen_get_width, gdk_screen_get_height,
      gnome_bg_crossfade_new, gnome_bg_crossfade_is_started, gnome_bg_crossfade_set_start_surface,
      gnome_bg_get_surface_from_root, record, hw, hr, hww, hwh, hd, hf, hb]
  obtain ⟨id, srcs, nid, lg, hq⟩ := queue_background_change_frame (init_fade s)
  have hlog : ∃ l, (queue_background_change (init_fade s)).log = (init_fade s).log ++ l ∧
      fades_created l = [] ∧ pattern_sets l = [] := by
    unfold queue_background_change
    by_cases hc : (init_fade s).details.change_idle_id = 0
    · rw [if_neg (by simpa using hc)]
      exact ⟨[Call.g_idle_add (init_fade s).next_source_id IdleFn.background_changed_cb],
        rfl, rfl, rfl⟩
    · rw [if_pos hc]
      exact ⟨[Call.g_source_remove (init_fade s).details.change_idle_id,
        Call.g_idle_add (init_fade s).next_source_id IdleFn.background_changed_cb],
        by simp [g_idle_add, g_source_remove, record], rfl, rfl⟩
  obtain ⟨l, hl, hl0, hl1⟩ := hlog
  refine ⟨?_, ?_, ?_, ?_⟩
  · rw [nautilus_desktop_background_changed, hq, hi]
  · rw [nautilus_desktop_background_changed]
    simp only [calls_since, hl]
    rw [hi]
    simp [fades_created, List.filterMap_append] at hl0 ⊢
    exact hl0
  · rw [nautilus_desktop_background_changed]
    simp only [calls_since, hl]
    rw [hi]
    simp [pattern_sets, List.filterMap_append] at hl1 ⊢
    exact hl1
  · rw [nautilus_desktop_background_changed, hq, hi]
    cases hb : s.details.background_surface <;>
    simp [fade_finished, run_fade_handler, on_fade_finished, free_fade,
      background_changed_cb, nautilus_desktop_background_unrealize,
      free_background_surface, nautilus_desktop_background_set_up_widget,
      nautilus_desktop_background_ensure_realized, fade_to_surface, gnome_bg_create_surface,
      gtk_widget_get_window, gtk_widget_get_realized, gtk_widget_get_screen, gdk_screen_get_width,
      gdk_screen_get_height, record, gnome_bg_set_surface_as_root, calls_since, pattern_sets,
      gnome_bg_crossfade_set_end_surface, gnome_bg_crossfade_is_started, gnome_bg_crossfade_start,
      hw, hr, hb, hz1]

/-- C7, amended, at the start-up state once the fade preference is on: fade 1
fades from surface 2 to the newly rendered surface 3. -/
theorem C7_configuration_change_fades_witness :
    (fading_switched_on.details.widget = some 1 ∧ fading_switched_on.realized = true ∧
      fading_switched_on.window_width = fading_switched_on.screen_width ∧
      fading_switched_on.window_height = fading_switched_on.screen_height ∧
      fading_switched_on.do_fade = true ∧ fading_switched_on.details.fade = none ∧
      ¬ (fading_switched_on.screen_width = 0 ∧ fading_switched_on.screen_height = 0) ∧
      fading_switched_on.details.background_surface = some ⟨2, 1920, 1080⟩ ∧
      fading_switched_on.next_fade_id = 1 ∧ fading_switched_on.next_surface_id = 3 ∧
      fading_switched_on.screen_width = 1920 ∧ fading_switched_on.screen_height = 1080) ∧
    ((nautilus_desktop_background_changed fading_switched_on).details.fade =
      some ⟨fading_switched_on.next_fade_id, fading_switched_on.screen_width,
        fading_switched_on.screen_height,
        some (fading_switched_on.details.background_surface.getD fading_switched_on.root_surface),
        none, false, [FadeHandler.free_fade]⟩ ∧
    fades_created (calls_since fading_switched_on
        (nautilus_desktop_background_changed fading_switched_on)) =
      [fading_switched_on.next_fade_id] ∧
    pattern_sets (calls_since fading_switched_on
        (nautilus_desktop_background_changed fading_switched_on)) = [] ∧
    (background_changed_cb
        (nautilus_desktop_background_changed fading_switched_on)).details.background_surface =
      some ⟨fading_switched_on.next_surface_id, fading_switched_on.screen_width,
        fading_switched_on.screen_height⟩ ∧
    (background_changed_cb (nautilus_desktop_background_changed fading_switched_on)).details.fade =
      some ⟨fading_switched_on.next_fade_id, fading_switched_on.screen_width,
        fading_switched_on.screen_height,
        some (fading_switched_on.details.background_surface.getD fading_switched_on.root_surface),
        some ⟨fading_switched_on.next_surface_id, fading_switched_on.screen_width,
          fading_switched_on.screen_height⟩, true,
        [FadeHandler.free_fade, FadeHandler.on_fade_finished]⟩ ∧
    calls_since (nautilus_desktop_background_changed fading_switched_on)
        (background_changed_cb (nautilus_desktop_background_changed fading_switched_on)) =
      fading_switched_on.details.background_surface.toList.map Call.cairo_surface_destroy ++
      [Call.gnome_bg_create_surface
          (some ⟨fading_switched_on.next_surface_id, fading_switched_on.screen_width,
            fading_switched_on.screen_height⟩)
          fading_switched_on.screen_width fading_switched_on.screen_height,
       Call.gnome_bg_crossfade_set_end_surface fading_switched_on.next_fade_id
          ⟨fading_switched_on.next_surface_id, fading_switched_on.screen_width,
            fading_switched_on.screen_height⟩,
       Call.gnome_bg_crossfade_start fading_switched_on.next_fade_id,
       Call.gtk_widget_queue_draw (some 1)] ∧
    calls_since (background_changed_cb (nautilus_desktop_background_changed fading_switched_on))
        (fade_finished (background_changed_cb
          (nautilus_desktop_background_changed fading_switched_on))) =
      [Call.g_object_unref_fade fading_switched_on.next_fade_id,
       Call.gnome_bg_set_surface_as_root
        ⟨fading_switched_on.next_surface_id, fading_switched_on.screen_width,
          fading_switched_on.screen_height⟩] ∧
    (fade_finished (background_changed_cb
        (nautilus_desktop_background_changed fading_switched_on))).details.fade = none ∧
    (fade_finished (background_changed_cb
        (nautilus_desktop_background_changed fading_switched_on))).root_surface =
      ⟨fading_switched_on.next_surface_id, fading_switched_on.screen_width,
        fading_switched_on.screen_height⟩ ∧
    pattern_sets (calls_since (nautilus_desktop_background_changed fading_switched_on)
        (background_changed_cb (nautilus_desktop_background_changed fading_switched_on))) = [] ∧
    pattern_sets (calls_since
        (background_changed_cb (nautilus_desktop_background_changed fading_switched_on))
        (fade_finished (background_changed_cb
          (nautilus_desktop_background_changed fading_switched_on)))) = []) :=
  ⟨by decide,
    C7_configuration_change_fades fading_switched_on 1 (by decide) (by decide) (by decide)
      (by decide) (by decide) (by decide) (by decide)⟩

/-! ## C8: the start-up sequence with fading disabled -/

/-- The calls of the start-up sequence with fading disabled, for every screen
size `W` x `H` other than 0x0: load the configuration, schedule the render
callback; on realize create surface 1 of `W` x `H` and set it as window
pattern and as root background; in the render callback destroy surface 1,
create surface 2 of `W` x `H`, set it as window pattern and as root
background, queue a redraw. -/
theorem startup_call_log (W H : Int) (hz : ¬ (W = 0 ∧ H = 0)) :
    (main_startup W H false).log =
      [Call.gnome_bg_load_from_preferences,
       Call.g_idle_add 1 IdleFn.background_changed_cb,
       Call.gnome_bg_create_surface (some ⟨1, W, H⟩) W H,
       Call.gdk_window_set_background_pattern ⟨1, W, H⟩,
       Call.gnome_bg_set_surface_as_root ⟨1, W, H⟩,
       Call.cairo_surface_destroy ⟨1, W, H⟩,
       Call.gnome_bg_create_surface (some ⟨2, W, H⟩) W H,
       Call.gdk_window_set_background_pattern ⟨2, W, H⟩,
       Call.gnome_bg_set_surface_as_root ⟨2, W, H⟩,
       Call.gtk_widget_queue_draw (some desktop)] ∧
    (main_startup W H false).details.background_surface = some ⟨2, W, H⟩ ∧
    (main_startup W H false).details.fade = none ∧
    (main_startup W H false).idle_sources = [] := by
  have hz1 := eq_false hz
  have hz2 : ((0 : Int) = W ∧ (0 : Int) = H) = False := by
    apply eq_false
    rintro ⟨h1, h2⟩
    exact hz ⟨h1.symm, h2.symm⟩
  simp [main_startup, constructed_controller, nautilus_desktop_background_new,
    nautilus_desktop_background_constructed, nautilus_desktop_background_set_property,
    nautilus_desktop_background_init, boot, queue_background_change, g_idle_add,
    gnome_bg_load_from_preferences,
    gtk_widget_realize, widget_realize_cb, g_signal_connect, init_fade, dispatch_idle, run_idle,
    background_changed_cb, nautilus_desktop_background_unrealize,
    free_background_surface, nautilus_desktop_background_set_up_widget,
    nautilus_desktop_background_ensure_realized, fade_to_surface, gnome_bg_create_surface,
    gtk_widget_get_window, gtk_widget_get_realized, gtk_widget_get_screen, gdk_screen_get_width,
    gdk_screen_get_height, record, gnome_bg_set_surface_as_root, desktop, hz1, hz2]

/-- C8 fails on the code: on a 1920x1080 screen with fading disabled the
start-up sequence renders twice. Realizing the window renders surface 1,
installs it and sets "ignore-pending-change"; the render callback scheduled at
construction (idle source 1) is still pending then, and when it is dispatched
it destroys surface 1 and renders and installs surface 2. No fade is
created. -/
theorem C8_startup_renders_twice :
    surfaces_created (gtk_widget_realize (constructed_controller 1920 1080 false)).log =
      [some ⟨1, 1920, 1080⟩] ∧
    (gtk_widget_realize (constructed_controller 1920 1080 false)).ignore_pending_change = true ∧
    (gtk_widget_realize (constructed_controller 1920 1080 false)).details.change_idle_id = 1 ∧
    (gtk_widget_realize (constructed_controller 1920 1080 false)).idle_sources =
      [(1, IdleFn.background_changed_cb)] ∧
    (main_startup 1920 1080 false).log =
      [Call.gnome_bg_load_from_preferences,
       Call.g_idle_add 1 IdleFn.background_changed_cb,
       Call.gnome_bg_create_surface (some ⟨1, 1920, 1080⟩) 1920 1080,
       Call.gdk_window_set_background_pattern ⟨1, 1920, 1080⟩,
       Call.gnome_bg_set_surface_as_root ⟨1, 1920, 1080⟩,
       Call.cairo_surface_destroy ⟨1, 1920, 1080⟩,
       Call.gnome_bg_create_surface (some ⟨2, 1920, 1080⟩) 1920 1080,
       Call.gdk_window_set_background_pattern ⟨2, 1920, 1080⟩,
       Call.gnome_bg_set_surface_as_root ⟨2, 1920, 1080⟩,
       Call.gtk_widget_queue_draw (some desktop)] ∧
    surfaces_created (main_startup 1920 1080 false).log =
      [some ⟨1, 1920, 1080⟩, some ⟨2, 1920, 1080⟩] ∧
    (surfaces_created (main_startup 1920 1080 false).log).length ≠ 1 ∧
    surfaces_destroyed (main_startup 1920 1080 false).log = [⟨1, 1920, 1080⟩] ∧
    fades_created (main_startup 1920 1080 false).log = [] := by
  decide

/-! ## C9: the constructor hands out the singleton -/

theorem ref_count_g_object_ref (l : List (Nat × Nat)) (p q : Nat) :
    ((l.map (fun r => if r.1 = p then (r.1, r.2 + 1) else r)).find? (fun r => r.1 == q)).map
        Prod.snd =
      if q = p then ((l.find? (fun r => r.1 == q)).map Prod.snd).map (· + 1)
      else (l.find? (fun r => r.1 == q)).map Prod.snd := by
  induction l with
  | nil => simp
  | cons a l ih =>
    obtain ⟨x, n⟩ := a
    by_cases hxp : x = p <;> by_cases hxq : x = q <;> by_cases hqp : q = p <;>
      simp_all [List.find?_cons]

/-- C9: while `singleton` points to an instance, the constructor returns that
instance, adds exactly one to its reference count, leaves every other count,
the set of live instances and `singleton` unchanged and allocates nothing; when
`singleton` is `NULL` it allocates a new instance with one reference and
records it as the singleton. -/
theorem C9_constructor_singleton (g : Globals) :
    match g.singleton with
    | some p =>
      (nautilus_desktop_background_constructor g).1 = p ∧
      (nautilus_desktop_background_constructor g).2.singleton = some p ∧
      (nautilus_desktop_background_constructor g).2.ref_count p =
        (g.ref_count p).map (· + 1) ∧
      (∀ q, q ≠ p → (nautilus_desktop_background_constructor g).2.ref_count q = g.ref_count q) ∧
      (nautilus_desktop_background_constructor g).2.instances.map Prod.fst =
        g.instances.map Prod.fst ∧
      (nautilus_desktop_background_constructor g).2.next_address = g.next_address
    | none =>
      (nautilus_desktop_background_constructor g).1 = g.next_address ∧
      (nautilus_desktop_background_constructor g).2.singleton = some g.next_address ∧
      (nautilus_desktop_background_constructor g).2.instances =
        g.instances ++ [(g.next_address, 1)] ∧
      (nautilus_desktop_background_constructor g).2.next_address = g.next_address + 1 := by
  cases hs : g.singleton with
  | none =>
    simp [nautilus_desktop_background_constructor, hs, Globals.parent_constructor]
  | some p =>
    have hc : nautilus_desktop_background_constructor g = (p, g.g_object_ref p) := by
      simp [nautilus_desktop_background_constructor, hs]
    rw [hc]
    refine ⟨rfl, hs, ?_, ?_, ?_, rfl⟩
    · simp only [Globals.g_object_ref, Globals.ref_count]
      rw [ref_count_g_object_ref, if_pos rfl]
    · intro q hq
      simp only [Globals.g_object_ref, Globals.ref_count]
      rw [ref_count_g_object_ref, if_neg hq]
    · simp only [Globals.g_object_ref]
      rw [List.map_map]
      apply List.map_congr_left
      intro a _
      by_cases h : a.1 = p <;> simp [h]

/-- C9 on a process whose controller at address 7 holds two references (a
second construction returns 7 with three references and allocates nothing) and
on a process without a controller (address 1 is allocated and recorded). -/
theorem C9_constructor_singleton_witness :
    (one_controller_alive.singleton = some 7 ∧ one_controller_alive.ref_count 7 = some 2 ∧
      (nautilus_desktop_background_constructor one_controller_alive).2.ref_count 7 = some 3 ∧
      (nautilus_desktop_background_constructor one_controller_alive).2.instances = [(7, 3)]) ∧
    ((nautilus_desktop_background_constructor one_controller_alive).1 = 7 ∧
      (nautilus_desktop_background_constructor one_controller_alive).2.singleton = some 7 ∧
      (nautilus_desktop_background_constructor one_controller_alive).2.ref_count 7 =
        (one_controller_alive.ref_count 7).map (· + 1) ∧
      (∀ q, q ≠ 7 → (nautilus_desktop_background_constructor one_controller_alive).2.ref_count q
        = one_controller_alive.ref_count q) ∧
      (nautilus_desktop_background_constructor one_controller_alive).2.instances.map Prod.fst =
        one_controller_alive.instances.map Prod.fst ∧
      (nautilus_desktop_background_constructor one_controller_alive).2.next_address =
        one_controller_alive.next_address) ∧
    ((nautilus_desktop_background_constructor no_controller).1 = no_controller.next_address ∧
      (nautilus_desktop_background_constructor no_controller).2.singleton =
        some no_controller.next_address ∧
      (nautilus_desktop_background_constructor no_controller).2.instances =
        no_controller.instances ++ [(no_controller.next_address, 1)] ∧
      (nautilus_desktop_background_constructor no_controller).2.next_address =
        no_controller.next_address + 1) :=
  ⟨by decide, C9_constructor_singleton one_controller_alive,
    C9_constructor_singleton no_controller⟩

/-! ## C10: a settings change is reloaded one idle turn later -/

theorem ref_count_free_fade (s : State) : (free_fade s).ref_count = s.ref_count := by
  unfold free_fade; split <;> rfl

theorem ref_count_free_background_surface (s : State) :
    (free_background_surface s).ref_count = s.ref_count := by
  unfold free_background_surface; split <;> rfl

theorem ref_count_unrealize (s : State) :
    (nautilus_desktop_background_unrealize s).ref_count = s.ref_count :=
  ref_count_free_background_surface s

theorem ref_count_create_surface (s : State) (w : Option GdkWindow) (a b : Int) :
    (gnome_bg_create_surface s w a b).2.ref_count = s.ref_count := by
  unfold gnome_bg_create_surface; split <;> rfl

theorem ref_count_init_fade (s : State) : (init_fade s).ref_count = s.ref_count := by
  unfold init_fade
  split_ifs <;> try rfl
  all_goals (cases hf : s.details.fade <;> simp only [] <;> split_ifs <;> try rfl)
  all_goals (repeat' split) <;> rfl

theorem ref_count_ensure_realized (s : State) :
    (nautilus_desktop_background_ensure_realized s).2.ref_count = s.ref_count := by
  unfold nautilus_desktop_background_ensure_realized
  dsimp only
  split_ifs
  · rfl
  · exact (ref_count_create_surface _ _ _ _).trans (ref_count_free_background_surface s)

theorem ref_count_on_fade_finished (s : State) :
    (on_fade_finished s).ref_count = s.ref_count := by
  unfold on_fade_finished
  dsimp only
  split
  · exact ref_count_ensure_realized s
  · exact ref_count_ensure_realized s

theorem ref_count_fade_to_surface (s : State) (w : Option GdkWindow) (b : Surface) :
    (fade_to_surface s w b).2.ref_count = s.ref_count := by
  unfold fade_to_surface
  split
  · rfl
  · simp only []
    split_ifs <;> rfl

theorem ref_count_set_up_widget (s : State) :
    (nautilus_desktop_background_set_up_widget s).ref_count = s.ref_count := by
  unfold nautilus_desktop_background_set_up_widget
  dsimp only
  split_ifs
  · rfl
  · split
    · exact ref_count_ensure_realized s
    · split_ifs
      · exact (ref_count_fade_to_surface _ _ _).trans (ref_count_ensure_realized s)
      · exact (ref_count_fade_to_surface _ _ _).trans (ref_count_ensure_realized s)

theorem ref_count_background_changed_cb (s : State) :
    (background_changed_cb s).ref_count = s.ref_count := by
  unfold background_changed_cb
  exact (ref_count_set_up_widget _).trans (ref_count_unrealize _)

theorem ref_count_queue_background_change (s : State) :
    (queue_background_change s).ref_count = s.ref_count := by
  obtain ⟨id, srcs, nid, lg, h⟩ := queue_background_change_frame s
  rw [h]

theorem ref_count_run_fade_handlers (hs : List FadeHandler) (s : State) :
    (hs.foldl run_fade_handler s).ref_count = s.ref_count := by
  induction hs generalizing s with
  | nil => rfl
  | cons h hs ih =>
    rw [List.foldl_cons, ih]
    cases h
    · exact ref_count_free_fade s
    · exact ref_count_on_fade_finished s

theorem ref_count_gtk_widget_realize (s : State) :
    (gtk_widget_realize s).ref_count = s.ref_count := by
  unfold gtk_widget_realize
  split_ifs
  · unfold widget_realize_cb
    exact (ref_count_set_up_widget _).trans (ref_count_init_fade _)
  · rfl

theorem ref_count_gtk_widget_unrealize (s : State) :
    (gtk_widget_unrealize s).ref_count = s.ref_count := by
  unfold gtk_widget_unrealize widget_unrealize_cb
  dsimp only
  split_ifs <;> rfl

theorem ref_count_on_widget_destroyed (s : State) :
    (on_widget_destroyed s).ref_count = s.ref_count := by
  unfold on_widget_destroyed
  dsimp only
  split_ifs
  · exact ref_count_free_fade _
  · exact ref_count_free_fade _

theorem ref_count_step_le (s : State) (e : Event) (h : dispatches_reload s e = false) :
    s.ref_count ≤ (step s e).ref_count := by
  cases e with
  | settings_change_event => exact Nat.le_succ _
  | bg_changed =>
    exact Nat.le_of_eq ((ref_count_queue_background_change _).trans (ref_count_init_fade s)).symm
  | bg_transitioned =>
    exact Nat.le_of_eq ((ref_count_queue_background_change _).trans (ref_count_free_fade s)).symm
  | screen_size_changed => exact Nat.le_of_eq (ref_count_queue_background_change s).symm
  | realize => exact Nat.le_of_eq (ref_count_gtk_widget_realize s).symm
  | unrealize => exact Nat.le_of_eq (ref_count_gtk_widget_unrealize s).symm
  | widget_destroyed =>
    simp only [step, gtk_widget_destroy]
    split_ifs
    · exact Nat.le_of_eq
        ((ref_count_on_widget_destroyed _).trans (ref_count_gtk_widget_unrealize s)).symm
    · exact Nat.le_refl _
  | fade_finished =>
    simp only [step, fade_finished]
    split
    · exact Nat.le_refl _
    · exact Nat.le_of_eq (ref_count_run_fade_handlers _ s).symm
  | idle id =>
    simp only [dispatches_reload] at h
    simp only [step, dispatch_idle]
    split
    · exact Nat.le_refl _
    · next p hp =>
      rw [hp] at h
      obtain ⟨j, f⟩ := p
      cases f with
      | background_changed_cb => exact Nat.le_of_eq (ref_count_background_changed_cb s).symm
      | background_change_event_idle_cb => simp at h
  | screen_resized _ _ => exact Nat.le_refl _
  | window_resized _ _ => exact Nat.le_refl _
  | fade_preference _ => exact Nat.le_refl _

theorem ref_count_run_le (es : List Event) (s : State)
    (h : no_reload_dispatched s es = true) : s.ref_count ≤ (run s es).ref_count := by
  induction es generalizing s with
  | nil => exact Nat.le_refl _
  | cons e es ih =>
    simp only [no_reload_dispatched, Bool.and_eq_true, Bool.not_eq_true'] at h
    exact Nat.le_trans (ref_count_step_le s e h.1) (ih _ h.2)

/-- What the settings handler and its idle callback do to a live controller,
taken by themselves. -/
theorem settings_change_then_reload (s : State) (h : 0 < s.ref_count) :
    calls_since s (background_settings_change_event_cb s) =
      [Call.g_object_ref_self,
       Call.g_idle_add s.next_source_id IdleFn.background_change_event_idle_cb] ∧
    reloads (calls_since s (background_settings_change_event_cb s)) = [] ∧
    (background_settings_change_event_cb s).idle_sources =
      s.idle_sources ++ [(s.next_source_id, IdleFn.background_change_event_idle_cb)] ∧
    (background_settings_change_event_cb s).ref_count = s.ref_count + 1 ∧
    (∀ es, no_reload_dispatched (background_settings_change_event_cb s) es = true →
      s.ref_count + 1 ≤ (run (background_settings_change_event_cb s) es).ref_count) ∧
    calls_since (background_settings_change_event_cb s)
        (background_change_event_idle_cb (background_settings_change_event_cb s)) =
      [Call.gnome_bg_load_from_preferences, Call.g_object_unref_self] ∧
    (background_change_event_idle_cb (background_settings_change_event_cb s)).ref_count =
      s.ref_count := by
  have h0 : ¬ s.ref_count = 0 := Nat.pos_iff_ne_zero.1 h
  refine ⟨?_, ?_, rfl, rfl, ?_, ?_, ?_⟩
  · simp [calls_since, background_settings_change_event_cb, g_idle_add, g_object_ref, record]
  · simp [calls_since, background_settings_change_event_cb, g_idle_add, g_object_ref, record,
      reloads]
  · intro es hes
    exact ref_count_run_le es _ hes
  · simp [calls_since, background_settings_change_event_cb, background_change_event_idle_cb,
      g_idle_add, g_object_ref, g_object_unref, record, gnome_bg_load_from_preferences, h0]
  · simp [background_settings_change_event_cb, background_change_event_idle_cb,
      g_idle_add, g_object_ref, g_object_unref, record, gnome_bg_load_from_preferences, h0]

theorem reload_ids_append (l m : List (Nat × IdleFn)) :
    reload_ids (l ++ m) = reload_ids l ++ reload_ids m := by
  simp [reload_ids]

theorem mem_reload_ids {l : List (Nat × IdleFn)} {i : Nat} :
    i ∈ reload_ids l ↔ (i, IdleFn.background_change_event_idle_cb) ∈ l := by
  simp only [reload_ids, List.mem_map, List.mem_filter]
  constructor
  · rintro ⟨⟨j, f⟩, ⟨hm, hf⟩, rfl⟩
    cases f
    · simp at hf
    · exact hm
  · intro h
    exact ⟨_, ⟨h, by simp⟩, rfl⟩

theorem reload_ids_remove_render {l : List (Nat × IdleFn)} {i : Nat}
    (h2 : (l.map Prod.fst).Nodup) (hi : (i, IdleFn.background_changed_cb) ∈ l) :
    reload_ids (l.filter (fun p => p.1 != i)) = reload_ids l := by
  unfold reload_ids
  rw [List.filter_comm]
  congr 1
  apply List.filter_eq_self.2
  intro p hp
  obtain ⟨hp1, hp2⟩ := List.mem_filter.1 hp
  obtain ⟨j, f⟩ := p
  by_cases hji : j = i
  · subst hji
    have := nodup_fst_unique h2 hp1 hi
    subst this
    simp at hp2
  · simpa using hji

theorem reload_ids_remove_reload {l : List (Nat × IdleFn)} {i : Nat}
    (h2 : (l.map Prod.fst).Nodup) (hi : (i, IdleFn.background_change_event_idle_cb) ∈ l) :
    (reload_ids (l.filter (fun p => p.1 != i))).length + 1 = (reload_ids l).length := by
  induction l with
  | nil => cases hi
  | cons a l ih =>
    obtain ⟨j, f⟩ := a
    simp only [List.map_cons, List.nodup_cons] at h2
    rcases List.mem_cons.1 hi with h | h
    · obtain ⟨rfl, rfl⟩ := Prod.mk.inj h
      have hl : l.filter (fun p => p.1 != i) = l := by
        apply List.filter_eq_self.2
        intro p hp
        have : p.1 ≠ i := fun hc => h2.1 (hc ▸ List.mem_map_of_mem Prod.fst hp)
        simpa using this
      simp [reload_ids, List.filter_cons, hl]
    · have hji : j ≠ i := fun hc => h2.1 (hc ▸ List.mem_map_of_mem Prod.fst h)
      have := ih h2.2 h
      cases f <;> simp [reload_ids, List.filter_cons, hji] at this ⊢ <;> omega

theorem find_of_nodup {l : List (Nat × IdleFn)} {i : Nat} {f : IdleFn}
    (h2 : (l.map Prod.fst).Nodup) (hi : (i, f) ∈ l) :
    l.find? (fun p => p.1 == i) = some (i, f) := by
  cases hfind : l.find? (fun p => p.1 == i) with
  | none =>
    have := List.find?_eq_none.1 hfind (i, f) hi
    simp at this
  | some p =>
    have hmem := List.mem_of_find?_eq_some hfind
    have hid : p.1 = i := by simpa using List.find?_some hfind
    obtain ⟨j, g⟩ := p
    simp only at hid
    subst hid
    rw [nodup_fst_unique h2 hmem hi]

theorem ref_count_reload_cb (s : State) :
    (background_change_event_idle_cb s).ref_count = s.ref_count - 1 := by
  unfold background_change_event_idle_cb g_object_unref
  dsimp only
  split_ifs with h
  · unfold nautilus_desktop_background_finalize
    rw [ref_count_free_fade, ref_count_free_background_surface]
    have h' : s.ref_count ≤ 1 := h
    show 0 = s.ref_count - 1
    omega
  · rfl

theorem sources_of_view {s t : State} (h : idle_view t = idle_view s) :
    t.idle_sources = s.idle_sources :=
  congrArg Prod.fst h

theorem pending_reloads_queue (t : State) (h : idle_ok (idle_view t)) :
    pending_reloads (queue_background_change t) = pending_reloads t := by
  unfold queue_background_change pending_reloads
  by_cases hc : t.details.change_idle_id = 0
  · rw [if_neg (by simpa using hc)]
    simp [g_idle_add, record, reload_ids_append, reload_ids]
  · rw [if_pos hc]
    have hm : (t.details.change_idle_id, IdleFn.background_changed_cb) ∈ t.idle_sources := by
      apply mem_render_ids.1
      have h1 := h.1
      simp only [idle_view, hc, if_false] at h1
      rw [h1]; exact List.mem_singleton_self _
    have := reload_ids_remove_render h.2.1 hm
    simp only [idle_view] at this
    simp only [g_idle_add, g_source_remove, record, reload_ids_append, this]
    simp [reload_ids]

theorem pending_reloads_on_widget_destroyed (t : State) (hit : idle_ok (idle_view t)) :
    pending_reloads (on_widget_destroyed t) = pending_reloads t := by
  have key : ∀ u : State,
      ({ free_fade u with details := { (free_fade u).details with widget := none } } :
        State).idle_sources = u.idle_sources :=
    fun u => sources_of_view (s := u)
      (t := { free_fade u with details := { (free_fade u).details with widget := none } })
      (by rw [← idle_view_free_fade u]; rfl)
  unfold on_widget_destroyed pending_reloads
  by_cases hc : t.details.change_idle_id = 0
  · rw [if_neg (by simpa using hc)]
    exact congrArg reload_ids (key t)
  · rw [if_pos hc]
    have hm : (t.details.change_idle_id, IdleFn.background_changed_cb) ∈ t.idle_sources := by
      apply mem_render_ids.1
      have h1 := hit.1
      simp only [idle_view, hc, if_false] at h1
      rw [h1]; exact List.mem_singleton_self _
    have h3 := reload_ids_remove_render (l := t.idle_sources) hit.2.1 hm
    refine (congrArg reload_ids (key _)).trans ?_
    exact h3

theorem ref_ok_step (s : State) (e : Event) (hi : idle_ok (idle_view s)) (h : ref_ok s) :
    ref_ok (step s e) := by
  have same : ∀ t : State, t.ref_count = s.ref_count → t.idle_sources = s.idle_sources →
      ref_ok t := by
    intro t h1 h2
    unfold ref_ok pending_reloads at *
    rw [h1, h2]; exact h
  have queued : ∀ t : State, t.ref_count = s.ref_count → idle_view t = idle_view s →
      ref_ok (queue_background_change t) := by
    intro t h1 h2
    unfold ref_ok
    rw [pending_reloads_queue t (idle_ok_of_view_eq h2 hi), ref_count_queue_background_change,
      h1]
    unfold pending_reloads
    rw [sources_of_view h2]
    exact h
  cases e with
  | settings_change_event =>
    unfold ref_ok pending_reloads at *
    simp only [step, background_settings_change_event_cb, g_idle_add, g_object_ref, record,
      reload_ids_append, List.length_append]
    rw [h]
    simp [reload_ids]
    omega
  | bg_changed => exact queued _ (ref_count_init_fade s) (idle_view_init_fade s)
  | bg_transitioned => exact queued _ (ref_count_free_fade s) (idle_view_free_fade s)
  | screen_size_changed => exact queued _ rfl rfl
  | realize =>
    exact same _ (ref_count_gtk_widget_realize s) (sources_of_view (idle_view_gtk_widget_realize s))
  | unrealize =>
    exact same _ (ref_count_gtk_widget_unrealize s)
      (sources_of_view (idle_view_gtk_widget_unrealize s))
  | widget_destroyed =>
    simp only [step, gtk_widget_destroy]
    split_ifs
    · have hv := idle_view_gtk_widget_unrealize s
      have hr := ref_count_gtk_widget_unrealize s
      generalize gtk_widget_unrealize s = t at hv hr
      have hit := idle_ok_of_view_eq hv hi
      have hp := pending_reloads_on_widget_destroyed t hit
      unfold ref_ok at *
      rw [ref_count_on_widget_destroyed, hr, hp, h]
      unfold pending_reloads
      rw [sources_of_view hv]
    · exact h
  | fade_finished =>
    refine same _ ?_ (sources_of_view (idle_view_fade_finished s))
    simp only [step, fade_finished]
    split
    · rfl
    · exact ref_count_run_fade_handlers _ s
  | idle id =>
    simp only [step, dispatch_idle]
    split
    · exact h
    · next p hp =>
      have hmem := List.mem_of_find?_eq_some hp
      have hid : p.1 = id := by simpa using List.find?_some hp
      obtain ⟨j, f⟩ := p
      simp only at hid
      subst hid
      cases f with
      | background_changed_cb =>
        have hv := idle_view_background_changed_cb s
        have hsrc : (background_changed_cb s).idle_sources = s.idle_sources :=
          congrArg Prod.fst hv
        unfold ref_ok pending_reloads
        simp only [run_idle, hsrc, ref_count_background_changed_cb]
        rw [reload_ids_remove_render (l := s.idle_sources) hi.2.1 hmem]
        exact h
      | background_change_event_idle_cb =>
        have hv := idle_view_background_change_event_idle_cb s
        have hsrc : (background_change_event_idle_cb s).idle_sources = s.idle_sources :=
          congrArg Prod.fst hv
        have hlen := reload_ids_remove_reload (l := s.idle_sources) hi.2.1 hmem
        unfold ref_ok pending_reloads at *
        simp only [run_idle, hsrc, ref_count_reload_cb]
        omega
  | screen_resized _ _ => exact h
  | window_resized _ _ => exact h
  | fade_preference _ => exact h

theorem ref_ok_reachable (width height : Int) (do_fade : Bool) (es : List Event) :
    idle_ok (idle_view (run (constructed_controller width height do_fade) es)) ∧
    ref_ok (run (constructed_controller width height do_fade) es) := by
  have h0 : idle_ok (idle_view (constructed_controller width height do_fade)) ∧
      ref_ok (constructed_controller width height do_fade) :=
    ⟨idle_ok_constructed_controller width height do_fade, rfl⟩
  generalize constructed_controller width height do_fade = s at h0
  induction es generalizing s with
  | nil => exact h0
  | cons e es ih => exact ih _ ⟨idle_ok_step s e h0.1, ref_ok_step s e h0.1 h0.2⟩

/-- C10, as stated, fails when two notifications are in flight: after
start-up (one reference) a first settings notification makes the count 2 and a
second one 3; when the idle callback of the first fires the count is 2 again,
not above its value before the second notification, whose callback is still
pending; when that one fires the count is 1, not the 2 it was before the
second notification. -/
theorem C10_counterexample_two_in_flight :
    started_plain.ref_count = 1 ∧
    (run started_plain [Event.settings_change_event]).ref_count = 2 ∧
    (run started_plain [Event.settings_change_event, Event.settings_change_event]).ref_count
      = 3 ∧
    (run started_plain [Event.settings_change_event,
      Event.settings_change_event]).idle_sources =
      [(2, IdleFn.background_change_event_idle_cb),
       (3, IdleFn.background_change_event_idle_cb)] ∧
    (run started_plain [Event.settings_change_event, Event.settings_change_event,
      Event.idle 2]).ref_count = 2 ∧
    (run started_plain [Event.settings_change_event, Event.settings_change_event,
      Event.idle 2]).idle_sources = [(3, IdleFn.background_change_event_idle_cb)] ∧
    ¬ ((run started_plain [Event.settings_change_event]).ref_count + 1 ≤
      (run started_plain [Event.settings_change_event, Event.settings_change_event,
        Event.idle 2]).ref_count) ∧
    (run started_plain [Event.settings_change_event, Event.settings_change_event,
      Event.idle 2, Event.idle 3]).ref_count = 1 ∧
    (run started_plain [Event.settings_change_event, Event.settings_change_event,
      Event.idle 2, Event.idle 3]).ref_count ≠
      (run started_plain [Event.settings_change_event]).ref_count := by
  decide

/-- C10, amended: in every state `s` reached from construction the reference
count is 1 plus the number of pending reload callbacks. The settings handler
only takes one reference and schedules `background_change_event_idle_cb`; it
does not reload. As long as no reload callback is dispatched the count stays
at least one above its value before the notification, and when the callback
runs right after the handler the count is back at that value. Every pending
reload callback, when it is dispatched, reloads the configuration and drops
exactly one reference: the count becomes one less than just before it ran. -/
theorem C10_reference_until_reload (width height : Int) (do_fade : Bool) (es : List Event) :
    let s := run (constructed_controller width height do_fade) es
    s.ref_count = 1 + (pending_reloads s).length ∧
    calls_since s (background_settings_change_event_cb s) =
      [Call.g_object_ref_self,
       Call.g_idle_add s.next_source_id IdleFn.background_change_event_idle_cb] ∧
    reloads (calls_since s (background_settings_change_event_cb s)) = [] ∧
    (background_settings_change_event_cb s).idle_sources =
      s.idle_sources ++ [(s.next_source_id, IdleFn.background_change_event_idle_cb)] ∧
    (background_settings_change_event_cb s).ref_count = s.ref_count + 1 ∧
    (∀ later, no_reload_dispatched (background_settings_change_event_cb s) later = true →
      s.ref_count + 1 ≤ (run (background_settings_change_event_cb s) later).ref_count) ∧
    calls_since (background_settings_change_event_cb s)
        (background_change_event_idle_cb (background_settings_change_event_cb s)) =
      [Call.gnome_bg_load_from_preferences, Call.g_object_unref_self] ∧
    (background_change_event_idle_cb (background_settings_change_event_cb s)).ref_count =
      s.ref_count ∧
    (∀ id ∈ pending_reloads s,
      calls_since s (step s (Event.idle id)) =
        [Call.gnome_bg_load_from_preferences, Call.g_object_unref_self] ∧
      (step s (Event.idle id)).ref_count + 1 = s.ref_count ∧
      (pending_reloads (step s (Event.idle id))).length + 1 = (pending_reloads s).length) := by
  intro s
  obtain ⟨hi, hr⟩ := ref_ok_reachable width height do_fade es
  have hr' : s.ref_count = 1 + (pending_reloads s).length := hr
  have hpos : 0 < s.ref_count := by omega
  obtain ⟨h1, h2, h3, h4, h5, h6, h7⟩ := settings_change_then_reload s hpos
  refine ⟨hr', h1, h2, h3, h4, h5, h6, h7, ?_⟩
  intro id hid
  have hmem : (id, IdleFn.background_change_event_idle_cb) ∈ s.idle_sources :=
    mem_reload_ids.1 hid
  have hnd : (s.idle_sources.map Prod.fst).Nodup := hi.2.1
  have hfind := find_of_nodup hnd hmem
  have hlen := reload_ids_remove_reload hnd hmem
  have hk : 0 < (pending_reloads s).length := List.length_pos_of_mem hid
  have h1lt : ¬ s.ref_count ≤ 1 := by omega
  have hsrc : (background_change_event_idle_cb s).idle_sources = s.idle_sources :=
    congrArg Prod.fst (idle_view_background_change_event_idle_cb s)
  refine ⟨?_, ?_, ?_⟩
  · simp [step, dispatch_idle, hfind, run_idle, calls_since, background_change_event_idle_cb,
      g_object_unref, record, gnome_bg_load_from_preferences, h1lt]
  · simp only [step, dispatch_idle, hfind, run_idle, ref_count_reload_cb]
    omega
  · simp only [step, dispatch_idle, hfind, run_idle, pending_reloads, hsrc]
    exact hlen

/-- C10, amended, with two notifications in flight after start-up: three
references are held, two of them by the pending callbacks 2 and 3; dispatching
callback 2 leaves two references and callback 3 pending. -/
theorem C10_reference_until_reload_witness :
    ((run (constructed_controller 1920 1080 false) two_notifications).ref_count = 3 ∧
      pending_reloads (run (constructed_controller 1920 1080 false) two_notifications) =
        [2, 3] ∧
      (step (run (constructed_controller 1920 1080 false) two_notifications)
        (Event.idle 2)).ref_count = 2 ∧
      pending_reloads (step (run (constructed_controller 1920 1080 false) two_notifications)
        (Event.idle 2)) = [3]) ∧
    (let s := run (constructed_controller 1920 1080 false) two_notifications
    s.ref_count = 1 + (pending_reloads s).length ∧
    calls_since s (background_settings_change_event_cb s) =
      [Call.g_object_ref_self,
       Call.g_idle_add s.next_source_id IdleFn.background_change_event_idle_cb] ∧
    reloads (calls_since s (background_settings_change_event_cb s)) = [] ∧
    (background_settings_change_event_cb s).idle_sources =
      s.idle_sources ++ [(s.next_source_id, IdleFn.background_change_event_idle_cb)] ∧
    (background_settings_change_event_cb s).ref_count = s.ref_count + 1 ∧
    (∀ later, no_reload_dispatched (background_settings_change_event_cb s) later = true →
      s.ref_count + 1 ≤ (run (background_settings_change_event_cb s) later).ref_count) ∧
    calls_since (background_settings_change_event_cb s)
        (background_change_event_idle_cb (background_settings_change_event_cb s)) =
      [Call.gnome_bg_load_from_preferences, Call.g_object_unref_self] ∧
    (background_change_event_idle_cb (background_settings_change_event_cb s)).ref_count =
      s.ref_count ∧
    (∀ id ∈ pending_reloads s,
      calls_since s (step s (Event.idle id)) =
        [Call.gnome_bg_load_from_preferences, Call.g_object_unref_self] ∧
      (step s (Event.idle id)).ref_count + 1 = s.ref_count ∧
      (pending_reloads (step s (Event.idle id))).length + 1 = (pending_reloads s).length)) :=
  ⟨by decide, C10_reference_until_reload 1920 1080 false two_notifications⟩

/-! ## C11: a dropped image -/

/-- C11: for every image URI (or `NULL`), with `from_uri` standing for
`g_filename_from_uri`, `nautilus_desktop_background_receive_dropped_background_image`
makes exactly three library calls in this order: set the placement to the tiled
style `wallpaper`, set the filename to the local path of the URI (`NULL` when
the URI is `NULL`), save the configuration to the settings; afterwards both the
background object and the persisted configuration carry the tiled placement
and that path. -/
theorem C11_dropped_image_saved_tiled (from_uri : String → Option String) (s : State)
    (image_uri : Option String) :
    calls_since s
        (nautilus_desktop_background_receive_dropped_background_image from_uri s image_uri) =
      [Call.gnome_bg_set_placement GDesktopBackgroundStyle.wallpaper,
       Call.gnome_bg_set_filename (image_uri.bind from_uri),
       Call.gnome_bg_save_to_preferences
        ⟨GDesktopBackgroundStyle.wallpaper, image_uri.bind from_uri⟩] ∧
    (nautilus_desktop_background_receive_dropped_background_image
        from_uri s image_uri).details.bg =
      ⟨GDesktopBackgroundStyle.wallpaper, image_uri.bind from_uri⟩ ∧
    (nautilus_desktop_background_receive_dropped_background_image
        from_uri s image_uri).gnome_background_preferences =
      ⟨GDesktopBackgroundStyle.wallpaper, image_uri.bind from_uri⟩ ∧
    (none : Option String).bind from_uri = none := by
  cases image_uri <;>
    simp [nautilus_desktop_background_receive_dropped_background_image,
      nautilus_desktop_background_set_image_uri, gnome_bg_set_placement, gnome_bg_set_filename,
      gnome_bg_save_to_preferences, record, calls_since]

/-- C11 at the start-up state for a dropped image file and for a `NULL` URI. -/
theorem C11_dropped_image_saved_tiled_witness :
    (started_plain.gnome_background_preferences = ⟨GDesktopBackgroundStyle.zoom, none⟩ ∧
      (nautilus_desktop_background_receive_dropped_background_image sample_from_uri started_plain
        (some "file:///home/me/cat.png")).gnome_background_preferences =
        ⟨GDesktopBackgroundStyle.wallpaper, some "/home/me/cat.png"⟩ ∧
      (nautilus_desktop_background_receive_dropped_background_image sample_from_uri started_plain
        none).gnome_background_preferences = ⟨GDesktopBackgroundStyle.wallpaper, none⟩) ∧
    (calls_since started_plain
        (nautilus_desktop_background_receive_dropped_background_image sample_from_uri
          started_plain (some "file:///home/me/cat.png")) =
      [Call.gnome_bg_set_placement GDesktopBackgroundStyle.wallpaper,
       Call.gnome_bg_set_filename ((some "file:///home/me/cat.png").bind sample_from_uri),
       Call.gnome_bg_save_to_preferences
        ⟨GDesktopBackgroundStyle.wallpaper,
          (some "file:///home/me/cat.png").bind sample_from_uri⟩] ∧
    (nautilus_desktop_background_receive_dropped_background_image
        sample_from_uri started_plain (some "file:///home/me/cat.png")).details.bg =
      ⟨GDesktopBackgroundStyle.wallpaper, (some "file:///home/me/cat.png").bind sample_from_uri⟩ ∧
    (nautilus_desktop_background_receive_dropped_background_image
        sample_from_uri started_plain (some "file:///home/me/cat.png")).gnome_background_preferences
      = ⟨GDesktopBackgroundStyle.wallpaper,
          (some "file:///home/me/cat.png").bind sample_from_uri⟩ ∧
    (none : Option String).bind sample_from_uri = none) :=
  ⟨by decide,
    C11_dropped_image_saved_tiled sample_from_uri started_plain (some "file:///home/me/cat.png")⟩

/-! ## C13: delete requests -/

/-- C13: for every widget and every delete event the handler
`nautilus_desktop_window_delete_event` returns `TRUE`; with the handler
installed by `nautilus_desktop_window_class_init`, delivering a delete request
leaves the state as it is, so the window is not destroyed by it. -/
theorem C13_delete_event_suppressed (widget : Nat) (event : GdkEventAny)
    (wclass : GtkWidgetClass) (s : State) :
    nautilus_desktop_window_delete_event widget event = true ∧
    (nautilus_desktop_window_class_init wclass).delete_event =
      some nautilus_desktop_window_delete_event ∧
    gtk_deliver_delete (nautilus_desktop_window_class_init wclass) s event = s := by
  refine ⟨rfl, rfl, ?_⟩
  simp [gtk_deliver_delete, nautilus_desktop_window_class_init,
    nautilus_desktop_window_delete_event]

/-- C13 at the start-up state: under the inherited default handler a delete
request destroys the window (the controller's widget field becomes `NULL`);
under the class set up by `nautilus_desktop_window_class_init` nothing
changes. -/
theorem C13_delete_event_suppressed_witness :
    ((gtk_deliver_delete ⟨none⟩ started_plain ⟨0, false⟩).details.widget = none ∧
      started_plain.details.widget = some desktop) ∧
    (nautilus_desktop_window_delete_event desktop ⟨0, false⟩ = true ∧
    (nautilus_desktop_window_class_init ⟨none⟩).delete_event =
      some nautilus_desktop_window_delete_event ∧
    gtk_deliver_delete (nautilus_desktop_window_class_init ⟨none⟩) started_plain ⟨0, false⟩ =
      started_plain) :=
  ⟨by decide, C13_delete_event_suppressed desktop ⟨0, false⟩ ⟨none⟩ started_plain⟩

/-! ## C12: one surface and one fade at a time -/

theorem tracks_refl (s : State) : tracks s s :=
  ⟨[], by simp, rfl, rfl⟩

theorem tracks_trans {s t u : State} (h1 : tracks s t) (h2 : tracks t u) : tracks s u := by
  obtain ⟨l, hl, hs, hf⟩ := h1
  obtain ⟨m, hm, hs2, hf2⟩ := h2
  refine ⟨l ++ m, ?_, ?_, ?_⟩
  · rw [hm, hl, List.append_assoc]
  · rw [List.foldl_append, hs, hs2]
  · rw [List.foldl_append, hf, hf2]

theorem foldl_track_neutral (l : List Call) (hl : ∀ c ∈ l, ownership_neutral c = true)
    (a : Option Surface) (b : Option Nat) :
    l.foldl track_surface (some a) = some a ∧ l.foldl track_fade (some b) = some b := by
  induction l with
  | nil => exact ⟨rfl, rfl⟩
  | cons c l ih =>
    have hc := hl c (List.mem_cons_self _ _)
    have ih' := ih (fun d hd => hl d (List.mem_cons_of_mem _ hd))
    have h1 : track_surface (some a) c = some a := by
      cases c <;> simp_all [track_surface, ownership_neutral]
    have h2 : track_fade (some b) c = some b := by
      cases c <;> simp_all [track_fade, ownership_neutral]
    rw [List.foldl_cons, List.foldl_cons, h1, h2]
    exact ih'

/-- A step that only logs neutral calls and keeps the surface and the identity
of the fade. -/
theorem tracks_of_neutral {s t : State} (l : List Call) (hl : t.log = s.log ++ l)
    (hn : ∀ c ∈ l, ownership_neutral c = true)
    (hb : t.details.background_surface = s.details.background_surface)
    (hf : t.details.fade.map Crossfade.id = s.details.fade.map Crossfade.id) : tracks s t := by
  refine ⟨l, hl, ?_, ?_⟩
  · rw [hb]; exact (foldl_track_neutral l hn _ none).1
  · rw [hf]; exact (foldl_track_neutral l hn none _).2

theorem tracks_free_background_surface (s : State) : tracks s (free_background_surface s) := by
  unfold free_background_surface
  split
  · next b hb =>
    exact ⟨[Call.cairo_surface_destroy b], rfl, by simp [track_surface, hb],
      by simp [track_fade, record]⟩
  · exact tracks_refl s

theorem tracks_free_fade (s : State) : tracks s (free_fade s) := by
  unfold free_fade
  split
  · next f hf =>
    exact ⟨[Call.g_object_unref_fade f.id], rfl, by simp [track_surface, record],
      by simp [track_fade, hf]⟩
  · exact tracks_refl s

theorem tracks_unrealize (s : State) : tracks s (nautilus_desktop_background_unrealize s) := by
  refine tracks_trans (tracks_free_background_surface s) ?_
  exact tracks_of_neutral [] (by simp [nautilus_desktop_background_unrealize]) (by simp) rfl rfl

theorem tracks_ensure_realized (s : State) :
    tracks s (nautilus_desktop_background_ensure_realized s).2 := by
  unfold nautilus_desktop_background_ensure_realized
  dsimp only
  split_ifs
  · exact tracks_refl s
  · refine tracks_trans (tracks_free_background_surface s) ?_
    have hn : (free_background_surface s).details.background_surface = none := by
      unfold free_background_surface
      split
      · rfl
      · next h => exact h
    generalize free_background_surface s = u at hn
    generalize gdk_screen_get_width (gtk_widget_get_screen s s.details.widget) = W
    generalize gdk_screen_get_height (gtk_widget_get_screen s s.details.widget) = H
    cases hw : gtk_widget_get_window u u.details.widget with
    | none =>
      exact ⟨[Call.gnome_bg_create_surface none W H], by simp [gnome_bg_create_surface, record],
        by simp [gnome_bg_create_surface, track_surface, hn],
        by simp [gnome_bg_create_surface, track_fade, record]⟩
    | some win =>
      exact ⟨[Call.gnome_bg_create_surface (some ⟨u.next_surface_id, W, H⟩) W H],
        by simp [gnome_bg_create_surface, record],
        by simp [gnome_bg_create_surface, track_surface, hn],
        by simp [gnome_bg_create_surface, track_fade, record]⟩

theorem tracks_set_surface_as_root (s : State) (b : Surface) :
    tracks s (gnome_bg_set_surface_as_root s b) :=
  tracks_of_neutral [Call.gnome_bg_set_surface_as_root b] rfl (by simp [ownership_neutral])
    rfl rfl

theorem tracks_record (s : State) (c : Call) (hc : ownership_neutral c = true) :
    tracks s (record s c) :=
  tracks_of_neutral [c] rfl (by simpa using hc) rfl rfl

theorem tracks_on_fade_finished (s : State) : tracks s (on_fade_finished s) := by
  unfold on_fade_finished
  dsimp only
  split
  · exact tracks_trans (tracks_ensure_realized s) (tracks_set_surface_as_root _ _)
  · exact tracks_ensure_realized s

theorem tracks_fade_to_surface (s : State) (w : Option GdkWindow) (b : Surface) :
    tracks s (fade_to_surface s w b).2 := by
  cases hf : s.details.fade with
  | none =>
    have : (fade_to_surface s w b).2 = s := by simp [fade_to_surface, hf]
    rw [this]; exact tracks_refl s
  | some f =>
    cases hst : f.started with
    | true =>
      refine tracks_of_neutral [Call.gnome_bg_crossfade_set_end_surface f.id b] ?_ ?_ ?_ ?_ <;>
      simp [fade_to_surface, gnome_bg_crossfade_set_end_surface, gnome_bg_crossfade_is_started,
        record, ownership_neutral, hf, hst]
    | false =>
      refine tracks_of_neutral [Call.gnome_bg_crossfade_set_end_surface f.id b,
        Call.gnome_bg_crossfade_start f.id] ?_ ?_ ?_ ?_ <;>
      simp [fade_to_surface, gnome_bg_crossfade_set_end_surface, gnome_bg_crossfade_is_started,
        gnome_bg_crossfade_start, record, ownership_neutral, hf, hst]
      split <;> rfl

theorem tracks_set_up_widget (s : State) :
    tracks s (nautilus_desktop_background_set_up_widget s) := by
  unfold nautilus_desktop_background_set_up_widget
  dsimp only
  split_ifs
  · exact tracks_refl s
  · split
    · exact tracks_ensure_realized s
    · split_ifs
      · exact tracks_trans (tracks_ensure_realized s)
          (tracks_trans (tracks_fade_to_surface _ _ _)
            (tracks_trans (tracks_record _ (Call.gdk_window_set_background_pattern _) rfl)
              (tracks_set_surface_as_root _ _)))
      · exact tracks_trans (tracks_ensure_realized s) (tracks_fade_to_surface _ _ _)

theorem tracks_background_changed_cb (s : State) : tracks s (background_changed_cb s) := by
  unfold background_changed_cb
  dsimp only
  refine tracks_trans (t := { s with details := { s.details with change_idle_id := 0 } })
    (tracks_of_neutral [] (by simp) (by simp) rfl rfl) ?_
  exact tracks_trans (tracks_unrealize _)
    (tracks_trans (tracks_set_up_widget _)
      (tracks_record _ (Call.gtk_widget_queue_draw _) rfl))

theorem tracks_queue_background_change (s : State) : tracks s (queue_background_change s) := by
  unfold queue_background_change
  by_cases hc : s.details.change_idle_id = 0
  · rw [if_neg (by simpa using hc)]
    exact tracks_of_neutral [Call.g_idle_add s.next_source_id IdleFn.background_changed_cb]
      rfl (by simp [ownership_neutral]) rfl rfl
  · rw [if_pos hc]
    exact tracks_of_neutral [Call.g_source_remove s.details.change_idle_id,
      Call.g_idle_add s.next_source_id IdleFn.background_changed_cb]
      (by simp [g_idle_add, g_source_remove, record]) (by simp [ownership_neutral]) rfl rfl

theorem tracks_init_fade (s : State) : tracks s (init_fade s) := by
  cases hw : s.details.widget with
  | none =>
    have : init_fade s = s := by simp [init_fade, hw]
    rw [this]; exact tracks_refl s
  | some w =>
    cases hr : s.realized with
    | false =>
      have : init_fade s = s := by simp [init_fade, gtk_widget_get_realized, hr]
      rw [this]; exact tracks_refl s
    | true =>
      cases hd : s.do_fade with
      | false =>
        have : init_fade s = s := by simp [init_fade, gtk_widget_get_realized, hw, hr, hd]
        rw [this]; exact tracks_refl s
      | true =>
        cases hf : s.details.fade with
        | some f =>
          cases hst : f.started with
          | true =>
            have : init_fade s = s := by
              simp [init_fade, gtk_widget_get_realized, gnome_bg_crossfade_is_started,
                hw, hr, hd, hf, hst]
            rw [this]; exact tracks_refl s
          | false =>
            refine tracks_of_neutral [Call.gnome_bg_crossfade_set_start_surface f.id
              (s.details.background_surface.getD s.root_surface)] ?_ ?_ ?_ ?_ <;>
            cases hb : s.details.background_surface <;>
            simp [init_fade, gtk_widget_get_realized, gnome_bg_crossfade_is_started,
              gnome_bg_crossfade_set_start_surface, gnome_bg_get_surface_from_root, record,
              ownership_neutral, hw, hr, hd, hf, hst, hb]
        | none =>
          by_cases hc : s.window_width = s.screen_width ∧ s.window_height = s.screen_height
          · have hc1 := eq_true hc
            refine ⟨[Call.gnome_bg_crossfade_new s.next_fade_id s.screen_width s.screen_height,
              Call.gnome_bg_crossfade_set_start_surface s.next_fade_id
                (s.details.background_surface.getD s.root_surface)], ?_, ?_, ?_⟩ <;>
            cases hb : s.details.background_surface <;>
            simp [init_fade, gtk_widget_get_realized, gnome_bg_crossfade_is_started,
              gnome_bg_crossfade_set_start_surface, gnome_bg_crossfade_new, record,
              gnome_bg_get_surface_from_root,
              gtk_widget_get_window, gtk_widget_get_screen, gdk_window_get_width,
              gdk_window_get_height, gdk_screen_get_width, gdk_screen_get_height,
              track_surface, track_fade, hw, hr, hd, hf, hc1, hb]
          · have hc1 := eq_false hc
            have : init_fade s = s := by
              simp [init_fade, gtk_widget_get_realized, gnome_bg_crossfade_is_started,
                gtk_widget_get_window, gtk_widget_get_screen, gdk_window_get_width,
                gdk_window_get_height, gdk_screen_get_width, gdk_screen_get_height,
                hw, hr, hd, hf, hc1]
            rw [this]; exact tracks_refl s

theorem tracks_on_widget_destroyed (s : State) : tracks s (on_widget_destroyed s) := by
  have key : ∀ u : State,
      tracks u { free_fade u with details := { (free_fade u).details with widget := none } } :=
    fun u => tracks_trans (tracks_free_fade u)
      (tracks_of_neutral [] (by simp) (by simp) rfl rfl)
  unfold on_widget_destroyed
  by_cases hc : s.details.change_idle_id = 0
  · rw [if_neg (by simpa using hc)]
    exact key s
  · rw [if_pos hc]
    refine tracks_trans ?_ (key _)
    exact tracks_of_neutral [Call.g_source_remove s.details.change_idle_id]
      (by simp [g_source_remove, record]) (by simp [ownership_neutral]) rfl rfl

theorem tracks_settings_change_event_cb (s : State) :
    tracks s (background_settings_change_event_cb s) :=
  tracks_of_neutral [Call.g_object_ref_self,
    Call.g_idle_add s.next_source_id IdleFn.background_change_event_idle_cb]
    (by simp [background_settings_change_event_cb, g_idle_add, g_object_ref, record])
    (by simp [ownership_neutral]) rfl rfl

theorem tracks_g_object_unref (s : State) : tracks s (g_object_unref s) := by
  unfold g_object_unref
  dsimp only
  have h1 : tracks s (record s Call.g_object_unref_self) := tracks_record _ _ rfl
  split_ifs
  · refine tracks_trans h1 (tracks_trans (t := { record s Call.g_object_unref_self with
      ref_count := 0 }) (tracks_of_neutral [] (by simp) (by simp) rfl rfl) ?_)
    unfold nautilus_desktop_background_finalize
    exact tracks_trans (tracks_free_background_surface _) (tracks_free_fade _)
  · exact tracks_trans h1 (tracks_of_neutral [] (by simp) (by simp) rfl rfl)

theorem tracks_background_change_event_idle_cb (s : State) :
    tracks s (background_change_event_idle_cb s) := by
  unfold background_change_event_idle_cb
  refine tracks_trans ?_ (tracks_g_object_unref _)
  exact tracks_of_neutral [Call.gnome_bg_load_from_preferences]
    (by simp [gnome_bg_load_from_preferences, record]) (by simp [ownership_neutral]) rfl rfl

theorem tracks_widget_realize_cb (s : State) : tracks s (widget_realize_cb s) := by
  unfold widget_realize_cb
  dsimp only
  refine tracks_trans ?_ (tracks_trans (tracks_init_fade _) (tracks_set_up_widget _))
  exact tracks_of_neutral [] (by simp [g_signal_connect]) (by simp) rfl rfl

theorem tracks_run_fade_handlers (hs : List FadeHandler) (s : State) :
    tracks s (hs.foldl run_fade_handler s) := by
  induction hs generalizing s with
  | nil => exact tracks_refl s
  | cons a hs ih =>
    rw [List.foldl_cons]
    refine tracks_trans ?_ (ih _)
    cases a
    · exact tracks_free_fade s
    · exact tracks_on_fade_finished s

theorem tracks_step (s : State) (e : Event) : tracks s (step s e) := by
  cases e with
  | settings_change_event => exact tracks_settings_change_event_cb s
  | bg_changed => exact tracks_trans (tracks_init_fade s) (tracks_queue_background_change _)
  | bg_transitioned => exact tracks_trans (tracks_free_fade s) (tracks_queue_background_change _)
  | screen_size_changed => exact tracks_queue_background_change s
  | realize =>
    simp only [step, gtk_widget_realize]
    split_ifs
    · exact tracks_trans (t := { s with realized := true })
        (tracks_of_neutral [] (by simp) (by simp) rfl rfl) (tracks_widget_realize_cb _)
    · exact tracks_refl s
  | unrealize =>
    simp only [step, gtk_widget_unrealize, widget_unrealize_cb]
    split_ifs <;> exact tracks_of_neutral [] (by simp) (by simp) rfl rfl
  | widget_destroyed =>
    simp only [step, gtk_widget_destroy]
    split_ifs
    · refine tracks_trans ?_ (tracks_on_widget_destroyed _)
      simp only [gtk_widget_unrealize, widget_unrealize_cb]
      split_ifs <;> exact tracks_of_neutral [] (by simp) (by simp) rfl rfl
    · exact tracks_refl s
  | fade_finished =>
    simp only [step, fade_finished]
    split
    · exact tracks_refl s
    · exact tracks_run_fade_handlers _ s
  | idle id =>
    simp only [step, dispatch_idle]
    split
    · exact tracks_refl s
    · next p hp =>
      refine tracks_trans (t := run_idle s p.2) ?_
        (tracks_of_neutral [] (by simp) (by simp) rfl rfl)
      cases p.2
      · exact tracks_background_changed_cb s
      · exact tracks_background_change_event_idle_cb s
  | screen_resized _ _ => exact tracks_of_neutral [] (by simp [step]) (by simp) rfl rfl
  | window_resized _ _ => exact tracks_of_neutral [] (by simp [step]) (by simp) rfl rfl
  | fade_preference _ => exact tracks_of_neutral [] (by simp [step]) (by simp) rfl rfl

theorem tracks_run (es : List Event) (s : State) : tracks s (run s es) := by
  induction es generalizing s with
  | nil => exact tracks_refl s
  | cons e es ih => exact tracks_trans (tracks_step s e) (ih _)

/-- C12: in every state reached from construction by any sequence of events,
the call log shows that a surface was only ever created while the controller
owned none and that only the owned surface was ever destroyed, and the surface
still owned at the end is the one in `background_surface` (none if `NULL`);
likewise a fade was only ever created while none was owned, only the owned
fade was released, and the fade still owned is the one in the `fade` field.
So at every moment at most one surface and at most one fade are live. -/
theorem C12_one_surface_one_fade (width height : Int) (do_fade : Bool) (es : List Event) :
    surface_owner (run (constructed_controller width height do_fade) es).log =
      some (run (constructed_controller width height do_fade) es).details.background_surface ∧
    fade_owner (run (constructed_controller width height do_fade) es).log =
      some ((run (constructed_controller width height do_fade) es).details.fade.map
        Crossfade.id) := by
  obtain ⟨l, hl, hs, hf⟩ := tracks_run es (constructed_controller width height do_fade)
  have h0 : (constructed_controller width height do_fade).log =
      [Call.gnome_bg_load_from_preferences, Call.g_idle_add 1 IdleFn.background_changed_cb] := rfl
  have hb0 : (constructed_controller width height do_fade).details.background_surface = none :=
    rfl
  have hf0 : (constructed_controller width height do_fade).details.fade = none := rfl
  rw [hb0] at hs
  rw [hf0] at hf
  constructor
  · rw [surface_owner, hl, List.foldl_append, h0]
    exact hs
  · rw [fade_owner, hl, List.foldl_append, h0]
    exact hf

/-- C12 on a busy session: three surfaces and two fades were created in all,
surface 3 and fade 2 are the ones still owned; a log with two creations in a
row would be rejected by the bookkeeping. -/
theorem C12_one_surface_one_fade_witness :
    (surfaces_created (run (constructed_controller 1920 1080 true) busy_session).log =
        [some ⟨1, 1920, 1080⟩, some ⟨2, 1920, 1080⟩, some ⟨3, 2560, 1440⟩] ∧
      fades_created (run (constructed_controller 1920 1080 true) busy_session).log = [1, 2] ∧
      (run (constructed_controller 1920 1080 true) busy_session).details.background_surface =
        some ⟨3, 2560, 1440⟩ ∧
      (run (constructed_controller 1920 1080 true) busy_session).details.fade.map Crossfade.id =
        some 2 ∧
      surface_owner [Call.gnome_bg_create_surface (some ⟨1, 8, 8⟩) 8 8,
        Call.gnome_bg_create_surface (some ⟨2, 8, 8⟩) 8 8] = none ∧
      fade_owner [Call.gnome_bg_crossfade_new 1 8 8, Call.gnome_bg_crossfade_new 2 8 8] = none) ∧
    (surface_owner (run (constructed_controller 1920 1080 true) busy_session).log =
      some (run (constructed_controller 1920 1080 true) busy_session).details.background_surface ∧
    fade_owner (run (constructed_controller 1920 1080 true) busy_session).log =
      some ((run (constructed_controller 1920 1080 true) busy_session).details.fade.map
        Crossfade.id)) :=
  ⟨by decide, C12_one_surface_one_fade 1920 1080 true busy_session⟩

/-! ## C14: a configuration change while a fade waits to be started -/

/-- C14, as stated, fails in its last part: with fade 1 created and not yet
started, a second "changed" signal creates no fade and sets the start surface
of fade 1 again, and the render callback that follows (idle source 3) does not
free fade 1: it gives it the new surface as end surface and starts it, and the
controller still holds it. -/
theorem C14_counterexample_fade_not_freed :
    fade_created_unstarted.details.fade =
      some ⟨1, 1920, 1080, some ⟨2, 1920, 1080⟩, none, false, [FadeHandler.free_fade]⟩ ∧
    calls_since fade_created_unstarted (step fade_created_unstarted Event.bg_changed) =
      [Call.gnome_bg_crossfade_set_start_surface 1 ⟨2, 1920, 1080⟩,
       Call.g_source_remove 2, Call.g_idle_add 3 IdleFn.background_changed_cb] ∧
    calls_since (step fade_created_unstarted Event.bg_changed)
        (run fade_created_unstarted [Event.bg_changed, Event.idle 3]) =
      [Call.cairo_surface_destroy ⟨2, 1920, 1080⟩,
       Call.gnome_bg_create_surface (some ⟨3, 1920, 1080⟩) 1920 1080,
       Call.gnome_bg_crossfade_set_end_surface 1 ⟨3, 1920, 1080⟩,
       Call.gnome_bg_crossfade_start 1,
       Call.gtk_widget_queue_draw (some 1)] ∧
    fades_freed (run fade_created_unstarted [Event.bg_changed, Event.idle 3]).log = [] ∧
    (run fade_created_unstarted [Event.bg_changed, Event.idle 3]).details.fade =
      some ⟨1, 1920, 1080, some ⟨2, 1920, 1080⟩, some ⟨3, 1920, 1080⟩, true,
        [FadeHandler.free_fade, FadeHandler.on_fade_finished]⟩ := by
  decide

theorem changed_keeps_unstarted_fade (s : State) (f : Crossfade)
    (hf : s.details.fade = some f) (hst : f.started = false) :
    fades_created (calls_since s (nautilus_desktop_background_changed s)) = [] ∧
    fades_freed (calls_since s (nautilus_desktop_background_changed s)) = [] ∧
    (nautilus_desktop_background_changed s).details.fade =
      some (if gtk_widget_get_realized s s.details.widget && s.do_fade then
        { f with start_surface := some (s.details.background_surface.getD s.root_surface) }
        else f) := by
  by_cases hc : s.details.change_idle_id = 0 <;>
  cases hw : s.details.widget <;> cases hr : s.realized <;> cases hd : s.do_fade <;>
  cases hb : s.details.background_surface <;>
  simp [nautilus_desktop_background_changed, queue_background_change, g_idle_add,
    g_source_remove, init_fade, gtk_widget_get_realized, gnome_bg_crossfade_is_started,
    gnome_bg_crossfade_set_start_surface, gnome_bg_get_surface_from_root, record, calls_since,
    fades_created, fades_freed, hf, hst, hc, hw, hr, hd, hb]

theorem render_keeps_fade (t : State) (g : Crossfade) (hg : t.details.fade = some g) :
    fades_created (calls_since t (background_changed_cb t)) = [] ∧
    fades_freed (calls_since t (background_changed_cb t)) = [] ∧
    (background_changed_cb t).details.fade.map Crossfade.id = some g.id := by
  obtain ⟨gid, gw, gh, gs, ge, gst, ghs⟩ := g
  cases hw : t.details.widget with
  | none =>
    cases hb : t.details.background_surface <;>
    simp [background_changed_cb, nautilus_desktop_background_unrealize, free_background_surface,
      nautilus_desktop_background_set_up_widget, gtk_widget_get_realized, record, calls_since,
      fades_created, fades_freed, hg, hw, hb]
  | some w =>
    cases hr : t.realized with
    | false =>
      cases hb : t.details.background_surface <;>
      simp [background_changed_cb, nautilus_desktop_background_unrealize,
        free_background_surface, nautilus_desktop_background_set_up_widget,
        gtk_widget_get_realized, record, calls_since, fades_created, fades_freed, hg, hw, hb, hr]
    | true =>
      by_cases hz : t.screen_width = 0 ∧ t.screen_height = 0
      · have hz1 := eq_true hz
        cases hb : t.details.background_surface <;>
        simp [background_changed_cb, nautilus_desktop_background_unrealize,
          free_background_surface, nautilus_desktop_background_set_up_widget,
          nautilus_desktop_background_ensure_realized, gtk_widget_get_screen,
          gdk_screen_get_width, gdk_screen_get_height,
          gtk_widget_get_realized, record, calls_since, fades_created, fades_freed,
          hg, hw, hb, hr, hz1]
      · have hz1 := eq_false hz
        cases hb : t.details.background_surface <;> cases gs <;> cases gst <;>
        simp [background_changed_cb, nautilus_desktop_background_unrealize,
          free_background_surface, nautilus_desktop_background_set_up_widget,
          nautilus_desktop_background_ensure_realized, fade_to_surface, gnome_bg_create_surface,
          gtk_widget_get_window, gtk_widget_get_realized, gtk_widget_get_screen,
          gdk_screen_get_width, gdk_screen_get_height, record, gnome_bg_set_surface_as_root,
          calls_since, fades_created, fades_freed, gnome_bg_crossfade_set_end_surface,
          gnome_bg_crossfade_is_started, gnome_bg_crossfade_start, hg, hw, hb, hr, hz1]

/-- C14, amended: for every controller state holding a fade that is not yet
started, a further "changed" signal creates no fade and frees none; it leaves
the fade in place, with its start surface set again (to the controller's
surface, or the root surface when it holds none) when the window is realized
and fading is enabled. The render callback that follows creates no fade and
frees none either: the controller still holds the same fade object. When the
window is realized and the screen is not 0x0 the callback makes the newly
rendered surface the end surface of that fade, connects `on_fade_finished`
and starts the fade, whatever the fade preference is (the library starts it
because it has a start surface, which `init_fade` gives every fade it
creates); otherwise the callback leaves the fade as it is. -/
theorem C14_unstarted_fade_is_kept (s : State) (f : Crossfade)
    (hf : s.details.fade = some f) (hst : f.started = false) :
    fades_created (calls_since s (nautilus_desktop_background_changed s)) = [] ∧
    fades_freed (calls_since s (nautilus_desktop_background_changed s)) = [] ∧
    (nautilus_desktop_background_changed s).details.fade =
      some (if gtk_widget_get_realized s s.details.widget && s.do_fade then
        { f with start_surface := some (s.details.background_surface.getD s.root_surface) }
        else f) ∧
    fades_created (calls_since (nautilus_desktop_background_changed s)
      (background_changed_cb (nautilus_desktop_background_changed s))) = [] ∧
    fades_freed (calls_since (nautilus_desktop_background_changed s)
      (background_changed_cb (nautilus_desktop_background_changed s))) = [] ∧
    (background_changed_cb (nautilus_desktop_background_changed s)).details.fade.map
      Crossfade.id = some f.id ∧
    (background_changed_cb (nautilus_desktop_background_changed s)).details.fade =
      (if gtk_widget_get_realized s s.details.widget &&
          !(s.screen_width == 0 && s.screen_height == 0) then
        some ⟨f.id, f.width, f.height,
          (if s.do_fade then some (s.details.background_surface.getD s.root_surface)
            else f.start_surface),
          some ⟨s.next_surface_id, s.screen_width, s.screen_height⟩,
          (if s.do_fade then true else f.start_surface.isSome),
          f.finished_handlers ++ [FadeHandler.on_fade_finished]⟩
      else (nautilus_desktop_background_changed s).details.fade) := by
  obtain ⟨h1, h2, h3⟩ := changed_keeps_unstarted_fade s f hf hst
  obtain ⟨h4, h5, h6⟩ := render_keeps_fade _ _ h3
  refine ⟨h1, h2, h3, h4, h5, ?_, ?_⟩
  · rw [h6]
    split_ifs <;> rfl
  · obtain ⟨fid, fw, fh, fs, fe, fst, fhs⟩ := f
    simp only at hst
    subst hst
    cases hw : s.details.widget with
    | none =>
      by_cases hc : s.details.change_idle_id = 0 <;>
      cases hb : s.details.background_surface <;>
      simp [nautilus_desktop_background_changed, queue_background_change, g_idle_add,
        g_source_remove, init_fade, background_changed_cb,
        nautilus_desktop_background_unrealize, free_background_surface,
        nautilus_desktop_background_set_up_widget, gtk_widget_get_realized, record,
        hf, hc, hw, hb]
    | some w =>
      cases hr : s.realized with
      | false =>
        by_cases hc : s.details.change_idle_id = 0 <;>
        cases hb : s.details.background_surface <;>
        simp [nautilus_desktop_background_changed, queue_background_change, g_idle_add,
          g_source_remove, init_fade, background_changed_cb,
          nautilus_desktop_background_unrealize, free_background_surface,
          nautilus_desktop_background_set_up_widget, gtk_widget_get_realized, record,
          hf, hc, hw, hr, hb]
      | true =>
        by_cases hz : s.screen_width = 0 ∧ s.screen_height = 0
        · have hz1 := eq_true hz
          by_cases hc : s.details.change_idle_id = 0 <;>
          cases hd : s.do_fade <;> cases hb : s.details.background_surface <;>
          simp [nautilus_desktop_background_changed, queue_background_change, g_idle_add,
            g_source_remove, init_fade, gnome_bg_crossfade_set_start_surface,
            gnome_bg_crossfade_is_started, gnome_bg_get_surface_from_root,
            background_changed_cb, nautilus_desktop_background_unrealize,
            free_background_surface, nautilus_desktop_background_set_up_widget,
            nautilus_desktop_background_ensure_realized, gtk_widget_get_realized,
            gtk_widget_get_screen, gdk_screen_get_width, gdk_screen_get_height, record,
            hf, hc, hw, hr, hd, hb, hz1, hz.1, hz.2]
        · have hz1 := eq_false hz
          have hz2 : (s.screen_width == 0 && s.screen_height == 0) = false := by
            simpa using hz
          by_cases hc : s.details.change_idle_id = 0 <;>
          cases hd : s.do_fade <;> cases hb : s.details.background_surface <;> cases fs <;>
          simp [nautilus_desktop_background_changed, queue_background_change, g_idle_add,
            g_source_remove, init_fade, gnome_bg_crossfade_set_start_surface,
            gnome_bg_get_surface_from_root,
            background_changed_cb, nautilus_desktop_background_unrealize,
            free_background_surface, nautilus_desktop_background_set_up_widget,
            nautilus_desktop_background_ensure_realized, fade_to_surface,
            gnome_bg_create_surface, gtk_widget_get_window, gtk_widget_get_realized,
            gtk_widget_get_screen, gdk_screen_get_width, gdk_screen_get_height, record,
            gnome_bg_set_surface_as_root, gnome_bg_crossfade_set_end_surface,
            gnome_bg_crossfade_is_started, gnome_bg_crossfade_start,
            hf, hc, hw, hr, hd, hb, hz1, hz2]

/-- C14, amended, at the state where fade 1 waits and the fade preference has
been switched off again: the second "changed" signal leaves fade 1 untouched,
and the render callback hands it the new surface 3 and starts it; no fade is
freed. -/
theorem C14_unstarted_fade_is_kept_witness :
    (fade_waiting_preference_off.details.fade =
      some ⟨1, 1920, 1080, some ⟨2, 1920, 1080⟩, none, false, [FadeHandler.free_fade]⟩ ∧
      (⟨1, 1920, 1080, some ⟨2, 1920, 1080⟩, none, false,
        [FadeHandler.free_fade]⟩ : Crossfade).started = false ∧
      fade_waiting_preference_off.do_fade = false ∧
      (background_changed_cb
        (nautilus_desktop_background_changed fade_waiting_preference_off)).details.fade =
        some ⟨1, 1920, 1080, some ⟨2, 1920, 1080⟩, some ⟨3, 1920, 1080⟩, true,
          [FadeHandler.free_fade, FadeHandler.on_fade_finished]⟩) ∧
    (fades_created (calls_since fade_waiting_preference_off
        (nautilus_desktop_background_changed fade_waiting_preference_off)) = [] ∧
    fades_freed (calls_since fade_waiting_preference_off
        (nautilus_desktop_background_changed fade_waiting_preference_off)) = [] ∧
    fades_created (calls_since (nautilus_desktop_background_changed fade_waiting_preference_off)
      (background_changed_cb
        (nautilus_desktop_background_changed fade_waiting_preference_off))) = [] ∧
    fades_freed (calls_since (nautilus_desktop_background_changed fade_waiting_preference_off)
      (background_changed_cb
        (nautilus_desktop_background_changed fade_waiting_preference_off))) = [] ∧
    (background_changed_cb
      (nautilus_desktop_background_changed fade_waiting_preference_off)).details.fade.map
      Crossfade.id = some 1) :=
  ⟨by decide,
    (fun h => ⟨h.1, h.2.1, h.2.2.2.1, h.2.2.2.2.1, h.2.2.2.2.2.1⟩)
      (C14_unstarted_fade_is_kept fade_waiting_preference_off
        ⟨1, 1920, 1080, some ⟨2, 1920, 1080⟩, none, false, [FadeHandler.free_fade]⟩
        (by decide) rfl)⟩

/-! ## C15: the render callback after the widget is gone -/

/-- C15 fails on the code: after start-up, the widget is destroyed
(`on_widget_destroyed` leaves no render pending and sets the widget field to
`NULL`); a later "changed" signal of the background still schedules
`background_changed_cb` (idle source 2), and when that source is dispatched the
callback runs with the widget field `NULL`: it frees the surface and calls
`gtk_widget_queue_draw` on the `NULL` widget. -/
theorem C15_render_callback_runs_without_widget :
    (run started_plain [Event.widget_destroyed]).details.widget = none ∧
    pending_renders (run started_plain [Event.widget_destroyed]) = [] ∧
    (run started_plain [Event.widget_destroyed, Event.bg_changed]).details.widget = none ∧
    (run started_plain [Event.widget_destroyed, Event.bg_changed]).idle_sources =
      [(2, IdleFn.background_changed_cb)] ∧
    calls_since (run started_plain [Event.widget_destroyed, Event.bg_changed])
        (run started_plain [Event.widget_destroyed, Event.bg_changed, Event.idle 2]) =
      [Call.cairo_surface_destroy ⟨2, 1920, 1080⟩, Call.gtk_widget_queue_draw none] := by
  decide

end GnomeBackground
